import Mathlib

/-!
Verification of the luppa passport-validation core against its specification.

The Rust sources under `src/` are embedded shallowly:

* Rust `String` / `&str` become Lean `String`; all values the claims touch
  are ASCII, and per-character operations (`trim`, `to_uppercase`,
  `is_ascii_alphanumeric`, …) are modelled with Lean's character functions,
  which agree with Rust's on ASCII.  `str::len` (UTF-8 byte length) is
  modelled by `String.utf8ByteSize`; byte-indexed slices (`&s[a..b]`) are
  modelled by character-indexed slices, which coincide on ASCII input.
* Rust `f32` arithmetic on the small decimal confidence constants is
  modelled exactly over `ℚ`; every comparison a theorem below depends on is
  far from a rounding boundary.
* `Result<T, E>` becomes `Except E T`, `Option<T>` becomes `Option T`,
  `Vec<T>` becomes `List T`, and `HashMap` fields carried around unchanged
  become association lists.
* `u32::from_str` / `i32::from_str` become `Option Nat` values that fail on
  the empty string, on a non-digit, or past the integer bound, matching
  `str::parse` on the digit-only strings that reach them.
-/

/-! ## String helpers shared by several embedded modules -/

/-- Rust `str::len`: the UTF-8 byte length of the string. -/
def rustLen (s : String) : Nat := s.utf8ByteSize

/-- Rust `c.is_ascii_alphanumeric()`.  Lean's `Char.isAlphanum` tests exactly
ASCII letters and digits. -/
def isAsciiAlphanum (c : Char) : Bool := c.isAlphanum

/-- Rust `s.to_uppercase()` restricted to ASCII, where it maps `a`..`z` to
`A`..`Z` and leaves everything else unchanged, as `Char.toUpper` does. -/
def rustToUppercase (s : String) : String := String.mk (s.toList.map Char.toUpper)

/-- Rust `s.trim()`: drop whitespace from both ends (implemented over the
character list so that concrete evaluation stays kernel-reducible). -/
def rustTrim (s : String) : String :=
  String.mk (((s.toList.dropWhile Char.isWhitespace).reverse.dropWhile
    Char.isWhitespace).reverse)

/-- Rust `hay.contains(pat)` for a string pattern: substring containment. -/
def strContainsSub (hay pat : String) : Bool :=
  hay.toList.tails.any (fun t => pat.toList.isPrefixOf t)

/-- Rust `hay.contains(c)` for a char pattern. -/
def strContainsChar (hay : String) (c : Char) : Bool := hay.toList.contains c

/-- Character-indexed slice `&s[a..b]` (the sources index bytes; every sliced
string in the claims is ASCII, where the two agree). -/
def strSlice (s : String) (a b : Nat) : String :=
  String.mk ((s.toList.drop a).take (b - a))

/-- Numeric value of a digit-only character list (most significant first). -/
def digitsToNat (l : List Char) : Nat :=
  l.foldl (fun acc c => acc * 10 + (c.toNat - 48)) 0

/-- Rust `s.parse::<u32>()`: succeeds on a non-empty all-digit string whose
value fits in 32 bits (the strings that reach it never carry signs). -/
def parseU32 (s : String) : Option Nat :=
  if s ≠ "" ∧ s.toList.all Char.isDigit ∧ digitsToNat s.toList ≤ 4294967295 then
    some (digitsToNat s.toList)
  else none

/-- Rust `s.parse::<i32>()` on the digit-only strings that reach it. -/
def parseI32 (s : String) : Option Nat :=
  if s ≠ "" ∧ s.toList.all Char.isDigit ∧ digitsToNat s.toList ≤ 2147483647 then
    some (digitsToNat s.toList)
  else none

/-- Rust `s.split(p)` for a character predicate: every separator occurrence
splits, and adjacent separators yield empty pieces. -/
def rustSplitPred (p : Char → Bool) (s : String) : List String :=
  (s.toList.foldr
    (fun c acc =>
      if p c then [] :: acc
      else match acc with
        | a :: rest => (c :: a) :: rest
        | [] => [[c]])
    [[]]).map String.mk

/-- Rust `s.split_whitespace()`: whitespace-separated words, no empties. -/
def rustSplitWhitespace (s : String) : List String :=
  (rustSplitPred Char.isWhitespace s).filter (fun w => w ≠ "")

/-- Clamp a rational into `[0, 1]`, the shape `x.max(0.0).min(1.0)` takes in
the sources. -/
def clamp01 (x : ℚ) : ℚ := min (max x 0) 1

theorem clamp01_nonneg (x : ℚ) : 0 ≤ clamp01 x := by
  unfold clamp01
  have h0 : (0 : ℚ) ≤ max x 0 := le_max_right x 0
  exact le_min h0 (by norm_num)

theorem clamp01_le_one (x : ℚ) : clamp01 x ≤ 1 := min_le_right _ _

/-! ## Data model (`src/models/data.rs`) -/

/-- `DocumentFormat` from `src/models/data.rs`. -/
inductive DocumentFormat where
  | TD1 | TD2 | TD3 | MRVA | MRVB
deriving DecidableEq, Repr

/-- `DocumentFormat::mrz_chars_per_line`. -/
def DocumentFormat.mrz_chars_per_line : DocumentFormat → Nat
  | .TD1 => 30
  | .TD2 => 36
  | .TD3 => 44
  | .MRVA => 44
  | .MRVB => 36

/-- `DocumentFormat::mrz_lines`. -/
def DocumentFormat.mrz_lines_count : DocumentFormat → Nat
  | .TD1 => 3
  | .TD2 => 2
  | .TD3 => 2
  | .MRVA => 2
  | .MRVB => 2

/-- `CheckDigits` from `src/models/data.rs`. -/
structure CheckDigits where
  document_number_check : Char
  date_of_birth_check : Char
  date_of_expiry_check : Char
  personal_number_check : Char
  composite_check : Char
deriving DecidableEq, Repr

/-- `MrzData` from `src/models/data.rs`.  The extra `place_of_birth` field is
read by `src/processing/field_correction.rs` and written by the tests in
`src/ml/validation.rs` even though the struct declaration in `data.rs` omits
it; the embedding follows the usage sites. -/
structure MrzData where
  document_format : Option DocumentFormat := none
  document_type : String := ""
  issuing_country : String := ""
  document_number : String := ""
  surname : String := ""
  given_names : String := ""
  nationality : String := ""
  date_of_birth : String := ""
  gender : String := ""
  date_of_expiry : String := ""
  personal_number : Option String := none
  optional_data : Option String := none
  check_digits : CheckDigits := ⟨'0', '0', '0', '0', '0'⟩
  raw_mrz_lines : List String := []
  place_of_birth : Option String := none
deriving DecidableEq, Repr

/-- `VisualData` from `src/models/data.rs`; the binary image fields become
byte lists and the `additional_fields` map an association list. -/
structure VisualData where
  document_format : Option DocumentFormat := none
  document_type : String := ""
  issuing_country : String := ""
  document_number : String := ""
  name : String := ""
  surname : String := ""
  given_names : String := ""
  nationality : String := ""
  date_of_birth : String := ""
  gender : String := ""
  place_of_birth : Option String := none
  date_of_issue : String := ""
  date_of_expiry : String := ""
  authority : Option String := none
  personal_number : Option String := none
  portrait : Option (List Nat) := none
  signature : Option (List Nat) := none
  secondary_portrait : Option (List Nat) := none
  additional_fields : List (String × String) := []
deriving DecidableEq, Repr

/-- `ValidationIssueType` from `src/models/data.rs` (the variants the embedded
modules construct). -/
inductive ValidationIssueType where
  | Mrz | Security | Format | Biometric | Database | Expiry | Generic
deriving DecidableEq, Repr

/-- `ValidationIssue` from `src/models/data.rs`. -/
structure ValidationIssue where
  issue_type : ValidationIssueType
  message : String
deriving DecidableEq, Repr

/-- `MrzValidationResult` from `src/models/data.rs`. -/
structure MrzValidationResult where
  is_valid : Bool
  document_number_check_valid : Bool
  date_of_birth_check_valid : Bool
  date_of_expiry_check_valid : Bool
  personal_number_check_valid : Bool
  composite_check_valid : Bool
  issues : List ValidationIssue
deriving DecidableEq, Repr

/-- `PassportError` from `src/utils/error.rs` (the variants the embedded
modules construct). -/
inductive PassportError where
  | MrzExtractionError (msg : String)
  | FormatError (msg : String)
  | IoError (msg : String)
deriving DecidableEq, Repr

/-! ## Gregorian dates: `chrono::NaiveDate` as used by `parse_date` -/

/-- Gregorian leap year, as `chrono` implements it. -/
def isLeapYear (y : Int) : Bool :=
  y % 4 == 0 && (y % 100 != 0 || y % 400 == 0)

/-- Days in a month of the proleptic Gregorian calendar. -/
def daysInMonth (y : Int) (m : Nat) : Nat :=
  if m = 1 ∨ m = 3 ∨ m = 5 ∨ m = 7 ∨ m = 8 ∨ m = 10 ∨ m = 12 then 31
  else if m = 4 ∨ m = 6 ∨ m = 9 ∨ m = 11 then 30
  else if m = 2 then (if isLeapYear y then 29 else 28)
  else 0

/-- `chrono::NaiveDate` restricted to the fields the sources compare. -/
structure NaiveDate where
  year : Int
  month : Nat
  day : Nat
deriving DecidableEq, Repr

/-- `NaiveDate::from_ymd_opt`: `none` exactly when the month or day is out of
range for the calendar. -/
def NaiveDate.from_ymd_opt (y : Int) (m d : Nat) : Option NaiveDate :=
  if 1 ≤ m ∧ m ≤ 12 ∧ 1 ≤ d ∧ d ≤ daysInMonth y m then some ⟨y, m, d⟩ else none

/-! ## `MrzValidator` (`src/validation/mrz.rs`) -/

namespace MrzValidator

/-- Character value in `MrzValidator::calculate_check_digit`, the `match` at
`src/validation/mrz.rs:91`: digits map to their value, capital letters to
ordinal − `A` + 10, `<` and every unexpected character to 0. -/
def charValue (c : Char) : Nat :=
  if '0' ≤ c ∧ c ≤ '9' then c.toNat - '0'.toNat
  else if 'A' ≤ c ∧ c ≤ 'Z' then c.toNat - 'A'.toNat + 10
  else if c = '<' then 0
  else 0

/-- The ICAO weight for a position, `weights[i % 3]` with `weights = [7,3,1]`
at `src/validation/mrz.rs:88`. -/
def weightAt (i : Nat) : Nat :=
  if i % 3 = 0 then 7 else if i % 3 = 1 then 3 else 1

/-- `MrzValidator::calculate_check_digit` (`src/validation/mrz.rs:87`):
enumerate the characters, weight each character value by position, sum,
reduce mod 10 and render as an ASCII digit. -/
def calculate_check_digit (field : String) : Char :=
  let sum := (field.toList.enum.map (fun p => charValue p.2 * weightAt p.1)).sum
  Char.ofNat (sum % 10 + '0'.toNat)

/-- `MrzValidator::validate_check_digit` (`src/validation/mrz.rs:78`). -/
def validate_check_digit (field : String) (check_char : Char) : Bool :=
  calculate_check_digit field == check_char

/-- `MrzValidator::clean_field` (`src/validation/mrz.rs:197`): keep only the
ASCII alphanumerics. -/
def clean_field (field : String) : String :=
  String.mk (field.toList.filter isAsciiAlphanum)

/-- `MrzValidator::fields_match` (`src/validation/mrz.rs:178`). -/
def fields_match (f1 f2 : String) : Bool :=
  clean_field f1 == clean_field f2

/-- `MrzValidator::fields_match_case_insensitive` (`src/validation/mrz.rs:187`). -/
def fields_match_case_insensitive (f1 f2 : String) : Bool :=
  rustToUppercase (clean_field f1) == rustToUppercase (clean_field f2)

/-- `MrzValidator::names_compatible` (`src/validation/mrz.rs:205`). -/
def names_compatible (mrz_name visual_name : String) : Bool :=
  if mrz_name = "" ∨ visual_name = "" then true
  else
    let clean_mrz := rustToUppercase (clean_field mrz_name)
    let clean_viz := rustToUppercase (clean_field visual_name)
    strContainsSub clean_mrz clean_viz || strContainsSub clean_viz clean_mrz ||
      clean_mrz == clean_viz

/-- `MrzValidator::parse_date` (`src/validation/mrz.rs:246`): strip to digits
and separators, try YYMMDD, then the three-part separator formats. -/
def parse_date (date_str : String) : Option NaiveDate :=
  let cleaned := String.mk (date_str.toList.filter
    (fun c => c.isDigit || c = '/' || c = '-' || c = '.'))
  if cleaned.length = 6 ∧ cleaned.toList.all Char.isDigit then
    let year : Int := 2000 + ((parseI32 (strSlice cleaned 0 2)).getD 0 : Int)
    let month := (parseU32 (strSlice cleaned 2 4)).getD 0
    let day := (parseU32 (strSlice cleaned 4 6)).getD 0
    NaiveDate.from_ymd_opt year month day
  else
    let parts := rustSplitPred (fun c => c = '/' || c = '-' || c = '.') cleaned
    if parts.length = 3 then
      let p0 := parts.getD 0 ""
      let p1 := parts.getD 1 ""
      let p2 := parts.getD 2 ""
      if p0.length = 2 ∧ p2.length = 4 then
        NaiveDate.from_ymd_opt ((parseI32 p2).getD 0 : Int)
          ((parseU32 p1).getD 0) ((parseU32 p0).getD 0)
      else if p0.length = 4 ∧ p2.length = 2 then
        NaiveDate.from_ymd_opt ((parseI32 p0).getD 0 : Int)
          ((parseU32 p1).getD 0) ((parseU32 p2).getD 0)
      else
        let y0 := (parseI32 p2).getD 0
        let y : Int := if y0 < 100 then (y0 : Int) + 2000 else (y0 : Int)
        NaiveDate.from_ymd_opt y ((parseU32 p1).getD 0) ((parseU32 p0).getD 0)
    else none

/-- `MrzValidator::dates_compatible` (`src/validation/mrz.rs:220`). -/
def dates_compatible (mrz_date visual_date : String) : Bool :=
  if mrz_date = "" ∨ visual_date = "" then true
  else
    match parse_date mrz_date, parse_date visual_date with
    | some mrz_parsed, some viz_parsed => mrz_parsed == viz_parsed
    | _, _ =>
      let clean_mrz := clean_field mrz_date
      let clean_viz := clean_field visual_date
      if clean_mrz.length = clean_viz.length then clean_mrz == clean_viz
      else strContainsSub clean_mrz clean_viz || strContainsSub clean_viz clean_mrz

end MrzValidator

/-! ### Claim C1: the ICAO check-digit algorithm

Specification-side rendering of the checksum sentence of spec §4.2: each
character is valued (digit value / ordinal − `A` + 10 / 0 for `<`), values
are weighted by the cycle `[7,3,1]` carried along the string, summed and
reduced mod 10. -/

/-- The MRZ alphabet of the claim: digits, capital letters and the filler. -/
def isMrzAlphabet (c : Char) : Bool :=
  c.isDigit || ('A' ≤ c ∧ c ≤ 'Z') || c = '<'

/-- Character value as the spec sentence words it (only the three alphabet
cases; junk defaults to 0 like the source's catch-all). -/
def specCharValue (c : Char) : Nat :=
  if c.isDigit then c.toNat - 48
  else if 'A' ≤ c ∧ c ≤ 'Z' then c.toNat - 65 + 10
  else 0

/-- Weighted checksum as the spec words it: a recursion that carries the
weight cycle `7, 3, 1` along the character positions. -/
def specWeightedSum : List Char → Nat → Nat
  | [], _ => 0
  | c :: cs, i => specCharValue c * (if i % 3 = 0 then 7 else if i % 3 = 1 then 3 else 1)
      + specWeightedSum cs (i + 1)

/-- The expected check character of the spec: the mod-10 sum rendered as an
ASCII digit. -/
def specCheckChar (field : String) : Char :=
  Char.ofNat (specWeightedSum field.toList 0 % 10 + 48)

theorem specWeightedSum_eq_enumFrom (l : List Char) (i : Nat)
    (h : ∀ c ∈ l, isMrzAlphabet c = true) :
    specWeightedSum l i =
      ((l.enumFrom i).map (fun p => MrzValidator.charValue p.2 * MrzValidator.weightAt p.1)).sum := by
  induction l generalizing i with
  | nil => simp [specWeightedSum]
  | cons c cs ih =>
    have hc : isMrzAlphabet c = true := h c (List.mem_cons_self c cs)
    have hval : specCharValue c = MrzValidator.charValue c := by
      unfold specCharValue MrzValidator.charValue isMrzAlphabet at *
      rcases Bool.or_eq_true_iff.mp hc with h' | h'
      · rcases Bool.or_eq_true_iff.mp h' with hd | hl
        · have hd' : c.isDigit = true := hd
          have : '0' ≤ c ∧ c ≤ '9' := by
            unfold Char.isDigit at hd'
            constructor
            · exact Char.le_def.mpr (by exact (decide_eq_true_eq.mp (Bool.and_elim_left hd')))
            · exact Char.le_def.mpr (by exact (decide_eq_true_eq.mp (Bool.and_elim_right hd')))
          simp [hd', this, Char.le_def]
        · have hl' : 'A' ≤ c ∧ c ≤ 'Z' := of_decide_eq_true hl
          have hnd : ¬ ('0' ≤ c ∧ c ≤ '9') := by
            intro hcon
            have h1 : 65 ≤ c.toNat := hl'.1
            have h2 : c.toNat ≤ 57 := hcon.2
            omega
          have hndig : c.isDigit = false := by
            unfold Char.isDigit
            by_contra hcon
            have : ('0' ≤ c ∧ c ≤ '9') := by
              have := Bool.not_eq_false _ |>.mp hcon
              unfold Char.isDigit at this
              exact ⟨Char.le_def.mpr (decide_eq_true_eq.mp (Bool.and_elim_left this)),
                Char.le_def.mpr (decide_eq_true_eq.mp (Bool.and_elim_right this))⟩
            exact hnd this
          simp [hndig, hnd, hl']
      · have hlt : c = '<' := of_decide_eq_true h'
        subst hlt
        simp
    have hrest : ∀ c ∈ cs, isMrzAlphabet c = true := fun x hx => h x (List.mem_cons_of_mem c hx)
    simp [specWeightedSum, List.enumFrom, ih (i + 1) hrest, hval, MrzValidator.weightAt]

/-- Claim C1 — for every field over the MRZ alphabet,
`MrzValidator::calculate_check_digit` returns exactly the character the spec
describes (the `[7,3,1]`-weighted mod-10 checksum rendered as an ASCII digit,
hence a character in `'0'..'9'`), and `validate_check_digit field c` holds iff
that character equals `c`. -/
theorem C1_calculate_check_digit_follows_icao (field : String) (c : Char)
    (h : ∀ ch ∈ field.toList, isMrzAlphabet ch = true) :
    MrzValidator.calculate_check_digit field = specCheckChar field ∧
    ('0' ≤ specCheckChar field ∧ specCheckChar field ≤ '9') ∧
    MrzValidator.validate_check_digit field c = (specCheckChar field == c) := by
  have hsum : specWeightedSum field.toList 0 =
      ((field.toList.enum).map (fun p => MrzValidator.charValue p.2 * MrzValidator.weightAt p.1)).sum := by
    simpa [List.enum] using specWeightedSum_eq_enumFrom field.toList 0 h
  have heq : MrzValidator.calculate_check_digit field = specCheckChar field := by
    unfold MrzValidator.calculate_check_digit specCheckChar
    rw [hsum]
    rfl
  refine ⟨heq, ?_, ?_⟩
  · unfold specCheckChar
    have hlt : specWeightedSum field.toList 0 % 10 < 10 := Nat.mod_lt _ (by norm_num)
    generalize hg : specWeightedSum field.toList 0 % 10 = d at hlt ⊢
    interval_cases d <;> exact ⟨by decide, by decide⟩
  · unfold MrzValidator.validate_check_digit
    rw [heq]

/-- Witness for C1: the ICAO sample field `"520727"` has check digit `3`, and
`validate_check_digit` accepts exactly that digit. -/
theorem C1_calculate_check_digit_follows_icao_witness :
    MrzValidator.calculate_check_digit "520727" = specCheckChar "520727" ∧
    MrzValidator.validate_check_digit "520727" '3' = (specCheckChar "520727" == '3') := by
  have h := C1_calculate_check_digit_follows_icao "520727" '3' (by decide)
  exact ⟨h.1, h.2.2⟩

/-! ### `MrzValidator::validate` and its cross-checks (claim C9) -/

namespace MrzValidator

/-- Issue constructor shorthand for the `ValidationIssue { issue_type: Mrz, … }`
records the validator pushes. -/
def mrzIssue (msg : String) : ValidationIssue := ⟨.Mrz, msg⟩

/-- `MrzValidator::cross_check_fields` (`src/validation/mrz.rs:108`): the six
field comparisons, each contributing one issue when it fails, in source
order. -/
def cross_check_fields (mrz_data : MrzData) (visual_data : VisualData) : List ValidationIssue :=
  (if ¬ fields_match mrz_data.document_number visual_data.document_number then
    [mrzIssue ("Document number mismatch: MRZ='" ++ mrz_data.document_number ++
      "', Visual='" ++ visual_data.document_number ++ "'")] else []) ++
  (if visual_data.surname ≠ "" ∧ ¬ names_compatible mrz_data.surname visual_data.surname then
    [mrzIssue ("Surname mismatch: MRZ='" ++ mrz_data.surname ++
      "', Visual='" ++ visual_data.surname ++ "'")] else []) ++
  (if visual_data.given_names ≠ "" ∧ ¬ names_compatible mrz_data.given_names visual_data.given_names then
    [mrzIssue ("Given names mismatch: MRZ='" ++ mrz_data.given_names ++
      "', Visual='" ++ visual_data.given_names ++ "'")] else []) ++
  (if visual_data.date_of_birth ≠ "" ∧ ¬ dates_compatible mrz_data.date_of_birth visual_data.date_of_birth then
    [mrzIssue ("Date of birth mismatch: MRZ='" ++ mrz_data.date_of_birth ++
      "', Visual='" ++ visual_data.date_of_birth ++ "'")] else []) ++
  (if visual_data.gender ≠ "" ∧ ¬ fields_match_case_insensitive mrz_data.gender visual_data.gender then
    [mrzIssue ("Gender mismatch: MRZ='" ++ mrz_data.gender ++
      "', Visual='" ++ visual_data.gender ++ "'")] else []) ++
  (if visual_data.date_of_expiry ≠ "" ∧ ¬ dates_compatible mrz_data.date_of_expiry visual_data.date_of_expiry then
    [mrzIssue ("Date of expiry mismatch: MRZ='" ++ mrz_data.date_of_expiry ++
      "', Visual='" ++ visual_data.date_of_expiry ++ "'")] else []) ++
  (match mrz_data.personal_number, visual_data.personal_number with
    | some mrz_pn, some viz_pn =>
      if ¬ fields_match mrz_pn viz_pn then
        [mrzIssue ("Personal number mismatch: MRZ='" ++ mrz_pn ++ "', Visual='" ++ viz_pn ++ "'")]
      else []
    | _, _ => [])

/-- The `doc_num_check` binding of `MrzValidator::validate` (`src/validation/mrz.rs:17`). -/
def doc_number_check_ok (m : MrzData) : Bool :=
  validate_check_digit m.document_number m.check_digits.document_number_check

/-- The `dob_check` binding (`src/validation/mrz.rs:18`). -/
def dob_check_ok (m : MrzData) : Bool :=
  validate_check_digit m.date_of_birth m.check_digits.date_of_birth_check

/-- The `doe_check` binding (`src/validation/mrz.rs:19`). -/
def doe_check_ok (m : MrzData) : Bool :=
  validate_check_digit m.date_of_expiry m.check_digits.date_of_expiry_check

/-- The `personal_num_check` binding (`src/validation/mrz.rs:20`): an absent
personal number counts as valid. -/
def personal_number_check_ok (m : MrzData) : Bool :=
  match m.personal_number with
  | some pn => validate_check_digit pn m.check_digits.personal_number_check
  | none => true

/-- The result record `MrzValidator::validate` builds (`src/validation/mrz.rs:13`):
check-digit issues in source order, then the cross-check issues, overall
validity the conjunction, and `composite_check_valid` hard-coded `true`. -/
def validate_result (m : MrzData) (v : VisualData) : MrzValidationResult :=
  let inconsistencies := cross_check_fields m v
  let has_inconsistencies := !inconsistencies.isEmpty
  { is_valid := doc_number_check_ok m && dob_check_ok m && doe_check_ok m &&
      personal_number_check_ok m && !has_inconsistencies
    document_number_check_valid := doc_number_check_ok m
    date_of_birth_check_valid := dob_check_ok m
    date_of_expiry_check_valid := doe_check_ok m
    personal_number_check_valid := personal_number_check_ok m
    composite_check_valid := true
    issues :=
      (if doc_number_check_ok m then [] else [mrzIssue "Document number check digit is invalid"]) ++
      (if dob_check_ok m then [] else [mrzIssue "Date of birth check digit is invalid"]) ++
      (if doe_check_ok m then [] else [mrzIssue "Date of expiry check digit is invalid"]) ++
      (if personal_number_check_ok m then [] else [mrzIssue "Personal number check digit is invalid"]) ++
      inconsistencies }

/-- `MrzValidator::validate` (`src/validation/mrz.rs:13`): builds the result
and returns it with `Ok` on every path. -/
def validate (m : MrzData) (v : VisualData) : Except PassportError MrzValidationResult :=
  Except.ok (validate_result m v)

end MrzValidator

/-- Claim C9 — `MrzValidator::validate` never returns an error; every failed
check digit and every cross-check inconsistency contributes an entry to the
returned issue list; and the returned `is_valid` holds exactly when the
returned issue list is empty. -/
theorem C9_mrz_validate_total_and_items_issues (m : MrzData) (v : VisualData) :
    MrzValidator.validate m v = Except.ok (MrzValidator.validate_result m v) ∧
    ((MrzValidator.validate_result m v).is_valid = true ↔
      (MrzValidator.validate_result m v).issues = []) ∧
    ((MrzValidator.validate_result m v).document_number_check_valid = false →
      MrzValidator.mrzIssue "Document number check digit is invalid" ∈
        (MrzValidator.validate_result m v).issues) ∧
    ((MrzValidator.validate_result m v).date_of_birth_check_valid = false →
      MrzValidator.mrzIssue "Date of birth check digit is invalid" ∈
        (MrzValidator.validate_result m v).issues) ∧
    ((MrzValidator.validate_result m v).date_of_expiry_check_valid = false →
      MrzValidator.mrzIssue "Date of expiry check digit is invalid" ∈
        (MrzValidator.validate_result m v).issues) ∧
    ((MrzValidator.validate_result m v).personal_number_check_valid = false →
      MrzValidator.mrzIssue "Personal number check digit is invalid" ∈
        (MrzValidator.validate_result m v).issues) ∧
    (∀ i ∈ MrzValidator.cross_check_fields m v, i ∈ (MrzValidator.validate_result m v).issues) := by
  refine ⟨rfl, ?_, ?_, ?_, ?_, ?_, ?_⟩
  · unfold MrzValidator.validate_result
    by_cases h1 : MrzValidator.doc_number_check_ok m <;>
    by_cases h2 : MrzValidator.dob_check_ok m <;>
    by_cases h3 : MrzValidator.doe_check_ok m <;>
    by_cases h4 : MrzValidator.personal_number_check_ok m <;>
    cases hc : MrzValidator.cross_check_fields m v <;>
    simp [h1, h2, h3, h4, hc]
  · intro h
    unfold MrzValidator.validate_result at h ⊢
    simp only at h
    simp [h]
  · intro h
    unfold MrzValidator.validate_result at h ⊢
    simp only at h
    simp [h]
  · intro h
    unfold MrzValidator.validate_result at h ⊢
    simp only at h
    simp [h]
  · intro h
    unfold MrzValidator.validate_result at h ⊢
    simp only at h
    simp [h]
  · intro i hi
    unfold MrzValidator.validate_result
    simp only [List.mem_append]
    exact Or.inr hi

/-- Witness for C9 at a concrete input: the document number `"AB123"` has
check digit `'7'`, so pairing it with `'0'` fails the check and the matching
issue is in the returned list. -/
theorem C9_mrz_validate_total_and_items_issues_witness :
    MrzValidator.mrzIssue "Document number check digit is invalid" ∈
      (MrzValidator.validate_result
        { document_number := "AB123",
          check_digits := ⟨'0', '0', '0', '0', '0'⟩ } {}).issues := by
  exact (C9_mrz_validate_total_and_items_issues
    { document_number := "AB123", check_digits := ⟨'0', '0', '0', '0', '0'⟩ } {}).2.2.1
    (by decide)

/-! ## `FieldCorrection` (`src/processing/field_correction.rs`), claims C5 and C6 -/

namespace FieldCorrection

/-- `FieldCorrection::fields_match` (`src/processing/field_correction.rs:160`). -/
def fields_match (f1 f2 : String) : Bool :=
  String.mk (f1.toList.filter isAsciiAlphanum) == String.mk (f2.toList.filter isAsciiAlphanum)

/-- `FieldCorrection::fields_match_case_insensitive`
(`src/processing/field_correction.rs:174`). -/
def fields_match_case_insensitive (f1 f2 : String) : Bool :=
  rustToUppercase (String.mk (f1.toList.filter isAsciiAlphanum)) ==
    rustToUppercase (String.mk (f2.toList.filter isAsciiAlphanum))

/-- `FieldCorrection::names_compatible` (`src/processing/field_correction.rs:191`). -/
def names_compatible (mrz_name visual_name : String) : Bool :=
  if mrz_name = "" ∨ visual_name = "" then true
  else
    let clean_mrz := rustToUppercase (String.mk (mrz_name.toList.filter isAsciiAlphanum))
    let clean_viz := rustToUppercase (String.mk (visual_name.toList.filter isAsciiAlphanum))
    strContainsSub clean_mrz clean_viz || strContainsSub clean_viz clean_mrz ||
      clean_mrz == clean_viz

/-- `FieldCorrection::dates_compatible` (`src/processing/field_correction.rs:213`).
The two `return`s inside the six-digit branch exit early; every other path
falls through to the digit-only fallback comparison at the bottom of the
function. -/
def dates_compatible (mrz_date visual_date : String) : Bool :=
  if mrz_date = "" ∨ visual_date = "" then true
  else
    let fallback :=
      let clean_mrz := String.mk (mrz_date.toList.filter Char.isDigit)
      let clean_viz := String.mk (visual_date.toList.filter Char.isDigit)
      clean_mrz == clean_viz || strContainsSub clean_mrz clean_viz ||
        strContainsSub clean_viz clean_mrz
    if mrz_date.length = 6 ∧ mrz_date.toList.all Char.isDigit then
      let cleaned_visual := String.mk (visual_date.toList.filter Char.isDigit)
      if cleaned_visual.length = 6 then
        mrz_date == cleaned_visual ||
          (strSlice mrz_date 4 6 == strSlice cleaned_visual 0 2 &&
           strSlice mrz_date 2 4 == strSlice cleaned_visual 2 4 &&
           strSlice mrz_date 0 2 == strSlice cleaned_visual 4 6)
      else if cleaned_visual.length = 8 then
        let yy := if strSlice cleaned_visual 0 2 == "19" || strSlice cleaned_visual 0 2 == "20" then
            strSlice cleaned_visual 2 4
          else strSlice cleaned_visual 6 8
        let mm_dd_matches :=
          (strSlice mrz_date 2 4 == strSlice cleaned_visual 2 4 &&
           strSlice mrz_date 4 6 == strSlice cleaned_visual 0 2) ||
          (strSlice mrz_date 2 4 == strSlice cleaned_visual 4 6 &&
           strSlice mrz_date 4 6 == strSlice cleaned_visual 6 8)
        strSlice mrz_date 0 2 == yy && mm_dd_matches
      else
        let parts := rustSplitPred (fun c => c = '/' || c = '-' || c = '.') visual_date
        if parts.length = 3 then
          match parseU32 (parts.getD 0 ""), parseU32 (parts.getD 1 ""),
              parseI32 (parts.getD 2 "") with
          | some d, some mo, some y =>
            let mrz_day := (parseU32 (strSlice mrz_date 4 6)).getD 0
            let mrz_month := (parseU32 (strSlice mrz_date 2 4)).getD 0
            let mrz_year := if (parseU32 (strSlice mrz_date 0 2)).getD 0 ≥ 50 then
                1900 + (parseI32 (strSlice mrz_date 0 2)).getD 0
              else 2000 + (parseI32 (strSlice mrz_date 0 2)).getD 0
            decide (d = mrz_day) && decide (mo = mrz_month) &&
              (decide (y % 100 = mrz_year % 100) || decide (y = mrz_year))
          | _, _, _ => fallback
        else fallback
    else fallback

/-- `FieldCorrection::format_mrz_date` (`src/processing/field_correction.rs:287`):
YYMMDD becomes DD/MM/YYYY with a 50-pivot century; anything else is returned
unchanged. -/
def format_mrz_date (mrz_date : String) : String :=
  if mrz_date.length = 6 ∧ mrz_date.toList.all Char.isDigit then
    let day := strSlice mrz_date 4 6
    let month := strSlice mrz_date 2 4
    let yearCentury := if (parseU32 (strSlice mrz_date 0 2)).getD 0 ≥ 50 then "19" else "20"
    day ++ "/" ++ month ++ "/" ++ (yearCentury ++ strSlice mrz_date 0 2)
  else mrz_date

/-- The shape shared by the document-number, nationality and gender blocks of
`correct_visual_data` (`src/processing/field_correction.rs:20`, `:80`, `:117`):
overwrite with the MRZ value when the visual value is present but
incompatible, adopt the MRZ value when the visual value is empty, otherwise
keep the visual value. -/
def reconcile_simple (compat : String → String → Bool) (mf vf : String) : String :=
  if vf ≠ "" ∧ ¬ compat mf vf then mf
  else if vf = "" ∧ mf ≠ "" then mf
  else vf

/-- The shape shared by the two date blocks (`src/processing/field_correction.rs:92`,
`:104`): like `reconcile_simple` but the adopted MRZ value is display
formatted first. -/
def reconcile_date (compat : String → String → Bool) (fmt : String → String)
    (mf vf : String) : String :=
  if vf ≠ "" ∧ ¬ compat mf vf then fmt mf
  else if vf = "" ∧ mf ≠ "" then fmt mf
  else vf

/-- The shape shared by the surname and given-names blocks
(`src/processing/field_correction.rs:33`, `:55`).  Returns the corrected
value, whether a correction was recorded (key `surname` / `given_names`,
which later triggers the combined-name recompute), and whether only a
truncation discrepancy was recorded (key `surname_discrepancy` /
`given_names_discrepancy`). -/
def reconcile_name (mf vf : String) : String × Bool × Bool :=
  if vf ≠ "" ∧ ¬ names_compatible mf vf then
    if rustLen mf < rustLen vf ∧ rustLen mf < 20 then (vf, false, true)
    else (mf, true, false)
  else if vf = "" ∧ mf ≠ "" then (mf, true, false)
  else (vf, false, false)

/-- The personal-number block (`src/processing/field_correction.rs:129`). -/
def reconcile_personal_number (mpn vpn : Option String) : Option String :=
  match mpn, vpn with
  | some mrz_pn, some viz_pn => if ¬ fields_match mrz_pn viz_pn then some mrz_pn else some viz_pn
  | _, _ => if vpn.isNone ∧ mpn.isSome then mpn else vpn

/-- The place-of-birth block (`src/processing/field_correction.rs:142`). -/
def reconcile_place_of_birth (mpob vpob : Option String) : Option String :=
  if vpob.isNone ∧ mpob.isSome then mpob else vpob

/-- `FieldCorrection::correct_visual_data` (`src/processing/field_correction.rs:12`):
clone the visual record, reconcile each field against the MRZ record, and
recompute the combined display name when the surname or given names were
corrected (`src/processing/field_correction.rs:73`). -/
def correct_visual_data (m : MrzData) (v : VisualData) : VisualData :=
  let sp := reconcile_name m.surname v.surname
  let gp := reconcile_name m.given_names v.given_names
  { v with
    document_number := reconcile_simple fields_match m.document_number v.document_number
    surname := sp.1
    given_names := gp.1
    name := if sp.2.1 || gp.2.1 then ((gp.1.trim ++ " " ++ sp.1.trim).trim) else v.name
    nationality := reconcile_simple fields_match_case_insensitive m.nationality v.nationality
    date_of_birth := reconcile_date dates_compatible format_mrz_date m.date_of_birth v.date_of_birth
    date_of_expiry := reconcile_date dates_compatible format_mrz_date m.date_of_expiry v.date_of_expiry
    gender := reconcile_simple fields_match_case_insensitive m.gender v.gender
    personal_number := reconcile_personal_number m.personal_number v.personal_number
    place_of_birth := reconcile_place_of_birth m.place_of_birth v.place_of_birth }

theorem reconcile_simple_idem (c : String → String → Bool) (mf vf : String) :
    reconcile_simple c mf (reconcile_simple c mf vf) = reconcile_simple c mf vf := by
  by_cases h1 : vf ≠ "" ∧ ¬ c mf vf
  · simp only [reconcile_simple, if_pos h1]
    split_ifs <;> rfl
  · by_cases h2 : vf = "" ∧ mf ≠ ""
    · simp only [reconcile_simple, if_neg h1, if_pos h2]
      split_ifs <;> rfl
    · simp only [reconcile_simple, if_neg h1, if_neg h2]

theorem reconcile_date_idem (c : String → String → Bool) (fmt : String → String)
    (mf vf : String) :
    reconcile_date c fmt mf (reconcile_date c fmt mf vf) = reconcile_date c fmt mf vf := by
  by_cases h1 : vf ≠ "" ∧ ¬ c mf vf
  · simp only [reconcile_date, if_pos h1]
    split_ifs <;> rfl
  · by_cases h2 : vf = "" ∧ mf ≠ ""
    · simp only [reconcile_date, if_neg h1, if_pos h2]
      split_ifs <;> rfl
    · simp only [reconcile_date, if_neg h1, if_neg h2]

theorem reconcile_name_idem_val (mf vf : String) :
    (reconcile_name mf (reconcile_name mf vf).1).1 = (reconcile_name mf vf).1 := by
  by_cases h1 : vf ≠ "" ∧ ¬ names_compatible mf vf
  · by_cases hs : rustLen mf < rustLen vf ∧ rustLen mf < 20
    · simp only [reconcile_name, if_pos h1, if_pos hs]
    · simp only [reconcile_name, if_pos h1, if_neg hs]
      split_ifs <;> rfl
  · by_cases h2 : vf = "" ∧ mf ≠ ""
    · simp only [reconcile_name, if_neg h1, if_pos h2]
      split_ifs <;> rfl
    · simp only [reconcile_name, if_neg h1, if_neg h2]

theorem reconcile_name_idem_flag (mf vf : String) :
    (reconcile_name mf (reconcile_name mf vf).1).2.1 = true →
      (reconcile_name mf vf).2.1 = true := by
  by_cases h1 : vf ≠ "" ∧ ¬ names_compatible mf vf
  · by_cases hs : rustLen mf < rustLen vf ∧ rustLen mf < 20
    · simp only [reconcile_name, if_pos h1, if_pos hs]
      intro h
      exact h
    · simp only [reconcile_name, if_pos h1, if_neg hs]
      intro _
      trivial
  · by_cases h2 : vf = "" ∧ mf ≠ ""
    · simp only [reconcile_name, if_neg h1, if_pos h2]
      intro _
      trivial
    · simp only [reconcile_name, if_neg h1, if_neg h2]
      intro h
      exact h

theorem reconcile_personal_number_idem (mpn vpn : Option String) :
    reconcile_personal_number mpn (reconcile_personal_number mpn vpn) =
      reconcile_personal_number mpn vpn := by
  match mpn, vpn with
  | some mrz_pn, some viz_pn =>
    simp only [reconcile_personal_number]
    split_ifs <;> simp_all [reconcile_personal_number]
  | some mrz_pn, none =>
    simp [reconcile_personal_number]
  | none, some viz_pn => simp [reconcile_personal_number]
  | none, none => simp [reconcile_personal_number]

theorem reconcile_place_of_birth_idem (mpob vpob : Option String) :
    reconcile_place_of_birth mpob (reconcile_place_of_birth mpob vpob) =
      reconcile_place_of_birth mpob vpob := by
  unfold reconcile_place_of_birth
  split_ifs <;> simp_all

end FieldCorrection

/-- Claim C6 — `FieldCorrection::correct_visual_data` is idempotent: running
the correction a second time against the same MRZ record changes nothing,
field for field. -/
theorem C6_correct_visual_data_idempotent (m : MrzData) (v : VisualData) :
    FieldCorrection.correct_visual_data m (FieldCorrection.correct_visual_data m v) =
      FieldCorrection.correct_visual_data m v := by
  simp only [FieldCorrection.correct_visual_data, VisualData.mk.injEq]
  refine ⟨trivial, trivial, trivial, ?_, ?_, ?_, ?_, ?_, ?_, ?_, ?_, trivial, ?_, trivial, ?_,
    trivial, trivial, trivial, trivial⟩
  · exact FieldCorrection.reconcile_simple_idem _ _ _
  · -- combined display name
    by_cases hb : ((FieldCorrection.reconcile_name m.surname
        (FieldCorrection.reconcile_name m.surname v.surname).1).2.1 ||
        (FieldCorrection.reconcile_name m.given_names
        (FieldCorrection.reconcile_name m.given_names v.given_names).1).2.1) = true
    · rw [if_pos hb]
      have h1 : ((FieldCorrection.reconcile_name m.surname v.surname).2.1 ||
          (FieldCorrection.reconcile_name m.given_names v.given_names).2.1) = true := by
        rcases Bool.or_eq_true_iff.mp hb with h | h
        · exact Bool.or_eq_true_iff.mpr (Or.inl (FieldCorrection.reconcile_name_idem_flag _ _ h))
        · exact Bool.or_eq_true_iff.mpr (Or.inr (FieldCorrection.reconcile_name_idem_flag _ _ h))
      rw [if_pos h1, FieldCorrection.reconcile_name_idem_val, FieldCorrection.reconcile_name_idem_val]
    · rw [if_neg hb]
  · exact FieldCorrection.reconcile_name_idem_val _ _
  · exact FieldCorrection.reconcile_name_idem_val _ _
  · exact FieldCorrection.reconcile_simple_idem _ _ _
  · exact FieldCorrection.reconcile_date_idem _ _ _ _
  · exact FieldCorrection.reconcile_simple_idem _ _ _
  · exact FieldCorrection.reconcile_place_of_birth_idem _ _
  · exact FieldCorrection.reconcile_date_idem _ _ _ _
  · exact FieldCorrection.reconcile_personal_number_idem _ _

/-- Claim C5 — when a visual name field is non-empty and incompatible with the
MRZ value, `FieldCorrection::correct_visual_data` keeps the visual value and
records only a discrepancy (no correction) exactly when the MRZ value is both
strictly shorter than the visual value and shorter than 20 characters; in
every other incompatible non-empty case the field is overwritten with the MRZ
value.  Stated for the surname and the given-names fields. -/
theorem C5_name_truncation_policy (m : MrzData) (v : VisualData) :
    (v.surname ≠ "" →
      FieldCorrection.names_compatible m.surname v.surname = false →
      ((rustLen m.surname < rustLen v.surname ∧ rustLen m.surname < 20 →
        (FieldCorrection.correct_visual_data m v).surname = v.surname ∧
        FieldCorrection.reconcile_name m.surname v.surname =
          (v.surname, false, true)) ∧
      (¬ (rustLen m.surname < rustLen v.surname ∧ rustLen m.surname < 20) →
        (FieldCorrection.correct_visual_data m v).surname = m.surname))) ∧
    (v.given_names ≠ "" →
      FieldCorrection.names_compatible m.given_names v.given_names = false →
      ((rustLen m.given_names < rustLen v.given_names ∧ rustLen m.given_names < 20 →
        (FieldCorrection.correct_visual_data m v).given_names = v.given_names ∧
        FieldCorrection.reconcile_name m.given_names v.given_names =
          (v.given_names, false, true)) ∧
      (¬ (rustLen m.given_names < rustLen v.given_names ∧ rustLen m.given_names < 20) →
        (FieldCorrection.correct_visual_data m v).given_names = m.given_names))) := by
  constructor
  · intro hne hcompat
    have hcond : v.surname ≠ "" ∧ ¬ FieldCorrection.names_compatible m.surname v.surname := by
      exact ⟨hne, by simp [hcompat]⟩
    constructor
    · intro hshort
      constructor
      · simp only [FieldCorrection.correct_visual_data, FieldCorrection.reconcile_name,
          if_pos hcond, if_pos hshort]
      · simp only [FieldCorrection.reconcile_name, if_pos hcond, if_pos hshort]
    · intro hlong
      simp only [FieldCorrection.correct_visual_data, FieldCorrection.reconcile_name,
        if_pos hcond, if_neg hlong]
  · intro hne hcompat
    have hcond : v.given_names ≠ "" ∧ ¬ FieldCorrection.names_compatible m.given_names v.given_names := by
      exact ⟨hne, by simp [hcompat]⟩
    constructor
    · intro hshort
      constructor
      · simp only [FieldCorrection.correct_visual_data, FieldCorrection.reconcile_name,
          if_pos hcond, if_pos hshort]
      · simp only [FieldCorrection.reconcile_name, if_pos hcond, if_pos hshort]
    · intro hlong
      simp only [FieldCorrection.correct_visual_data, FieldCorrection.reconcile_name,
        if_pos hcond, if_neg hlong]

/-- Witness for C5: a short incompatible MRZ surname (`"SMITX"`, 5 < 11 and
5 < 20) leaves the visual surname in place, while a 21-character incompatible
MRZ given-names value overwrites the 3-character visual one. -/
theorem C5_name_truncation_policy_witness :
    (FieldCorrection.correct_visual_data
      { surname := "SMITX", given_names := "ABCDEFGHIJKLMNOPQRSTU" }
      { surname := "SMITHSONIAN", given_names := "XYZ" }).surname = "SMITHSONIAN" ∧
    (FieldCorrection.correct_visual_data
      { surname := "SMITX", given_names := "ABCDEFGHIJKLMNOPQRSTU" }
      { surname := "SMITHSONIAN", given_names := "XYZ" }).given_names =
        "ABCDEFGHIJKLMNOPQRSTU" := by
  have h := C5_name_truncation_policy
    { surname := "SMITX", given_names := "ABCDEFGHIJKLMNOPQRSTU" }
    { surname := "SMITHSONIAN", given_names := "XYZ" }
  exact ⟨((h.1 (by decide) (by decide)).1 (by decide)).1,
    (h.2 (by decide) (by decide)).2 (by decide)⟩

/-! ## `SimpleValidator` (`src/ml/simple_validator.rs`), claims C4 and C7

`ml/mod.rs` builds the crate with `SimpleValidator` re-exported as
`MlValidator`; the original `ml/validation.rs` is embedded further below for
the claims that cite it. -/

/-- `ValidationConfidence` (`src/ml/simple_validator.rs:11`, identical to the
struct in `src/ml/validation.rs:10`). -/
structure ValidationConfidence where
  mrz_confidence : ℚ
  visual_confidence : ℚ
  consistency_confidence : ℚ
  security_feature_confidence : ℚ
  fraud_detection_confidence : ℚ
deriving DecidableEq, Repr

namespace SimpleValidator

/-- The `country_rules` table built by `SimpleValidator::new`
(`src/ml/simple_validator.rs:20`): only USA and GBR carry a
`document_number_length` rule, both with length 9. -/
def country_doc_len (country : String) : Option Nat :=
  if country = "USA" then some 9
  else if country = "GBR" then some 9
  else none

/-- `SimpleValidator::validate_mrz` (`src/ml/simple_validator.rs:67`). -/
def validate_mrz (m : MrzData) : ℚ :=
  let base : ℚ :=
    (if m.document_number ≠ "" then 0.2 else 0) +
    (if m.surname ≠ "" ∧ m.given_names ≠ "" then 0.2 else 0) +
    (if m.nationality ≠ "" then 0.1 else 0) +
    (if m.date_of_birth ≠ "" then 0.2 else 0) +
    (if m.gender ≠ "" then 0.1 else 0) +
    (if m.date_of_expiry ≠ "" then 0.2 else 0)
  let adjusted : ℚ :=
    match country_doc_len m.issuing_country with
    | some len => if rustLen m.document_number = len then base + 0.1 else base - 0.2
    | none => base
  clamp01 adjusted

/-- `SimpleValidator::validate_visual_data` (`src/ml/simple_validator.rs:114`):
eight presence checks averaged over `checks = 8.0`. -/
def validate_visual_data (v : VisualData) : ℚ :=
  let confidence : ℚ :=
    (if v.document_number ≠ "" then 1 else 0) +
    (if v.surname ≠ "" then 1 else 0) +
    (if v.date_of_birth ≠ "" then 1 else 0) +
    (if v.gender ≠ "" then 1 else 0) +
    (if v.date_of_expiry ≠ "" then 1 else 0) +
    (if v.date_of_issue ≠ "" then 1 else 0) +
    (match v.place_of_birth with | some place => if place ≠ "" then 1 else 0 | none => 0) +
    (match v.authority with | some auth => if auth ≠ "" then 1 else 0 | none => 0)
  clamp01 (confidence / 8)

/-- `SimpleValidator::levenshtein_distance` inner row computation
(`src/ml/simple_validator.rs:278`): one DP row from the previous row, where
`left` carries `matrix[i][j-1]` and the previous row supplies
`matrix[i-1][j-1]` and `matrix[i-1][j]`. -/
def levGo (c : Char) : List Char → List Nat → Nat → List Nat
  | b :: bs, pjm1 :: rest, left =>
    let pj := rest.headD 0
    let cost := if c = b then 0 else 1
    let v := min (min (pj + 1) (left + 1)) (pjm1 + cost)
    v :: levGo c bs rest v
  | _, _, _ => []

/-- `SimpleValidator::levenshtein_distance` (`src/ml/simple_validator.rs:250`),
computed row by row over the DP matrix of the source. -/
def levenshtein_distance (s1 s2 : String) : Nat :=
  if s1 == s2 then 0
  else
    let l1 := s1.toList
    let l2 := s2.toList
    if l1.length = 0 then l2.length
    else if l2.length = 0 then l1.length
    else
      let init := List.range (l2.length + 1)
      let finalRow := (l1.foldl
        (fun (acc : List Nat × Nat) c => (acc.2 :: levGo c l2 acc.1 acc.2, acc.2 + 1))
        (init, 1)).1
      finalRow.getLastD 0

/-- `SimpleValidator::calculate_similarity` (`src/ml/simple_validator.rs:231`):
1 for equal strings, else the clamped complement of the normalized
Levenshtein distance. -/
def calculate_similarity (a b : String) : ℚ :=
  if a == b then 1
  else
    let distance := levenshtein_distance a b
    let max_len : ℚ := (max (rustLen a) (rustLen b) : ℚ)
    if max_len = 0 then 1
    else clamp01 (1 - (distance : ℚ) / max_len)

/-- A date separator of the `normalize_date` regexes: dash, slash or dot. -/
def isDateSep (c : Char) : Bool := c = '-' || c = '/' || c = '.'

/-- The greedy alternatives of the optional separator (dash, slash or dot,
optional): consume the separator first, fall back to consuming nothing. -/
def optSepAlts (l : List Char) : List (List Char) :=
  match l with
  | c :: rest => if isDateSep c then [rest, l] else [l]
  | [] => [l]

/-- Two consecutive digits, the `(\d{2})` capture group. -/
def twoDigits (l : List Char) : Option (String × List Char) :=
  match l with
  | a :: b :: rest => if a.isDigit && b.isDigit then some (String.mk [a, b], rest) else none
  | _ => none

/-- Match of the first `normalize_date` regex (two digits, optional
separator, two digits, optional separator, two digits) at one position, with
the regex crate's greedy backtracking on the optional separators. -/
def matchYmd6At (l : List Char) : Option (String × String × String) :=
  match twoDigits l with
  | none => none
  | some (g1, r1) =>
    (optSepAlts r1).findSome? fun r2 =>
      match twoDigits r2 with
      | none => none
      | some (g2, r3) =>
        (optSepAlts r3).findSome? fun r4 =>
          match twoDigits r4 with
          | none => none
          | some (g3, _) => some (g1, g2, g3)

/-- Leftmost match of the first `normalize_date` regex. -/
def findYmd6 : List Char → Option (String × String × String)
  | [] => none
  | c :: t =>
    match matchYmd6At (c :: t) with
    | some x => some x
    | none => findYmd6 t

/-- Match of the second `normalize_date` regex (two digits, separator, two
digits, separator, two digits — separators mandatory) at one position. -/
def matchSep6At (l : List Char) : Option (String × String × String) :=
  match twoDigits l with
  | some (g1, c :: r2) =>
    if isDateSep c then
      match twoDigits r2 with
      | some (g2, c2 :: r4) =>
        if isDateSep c2 then
          match twoDigits r4 with
          | some (g3, _) => some (g1, g2, g3)
          | none => none
        else none
      | _ => none
    else none
  | _ => none

/-- Leftmost match of the second `normalize_date` regex. -/
def findSep6 : List Char → Option (String × String × String)
  | [] => none
  | c :: t =>
    match matchSep6At (c :: t) with
    | some x => some x
    | none => findSep6 t

/-- `SimpleValidator::normalize_date` (`src/ml/simple_validator.rs:303`): the
first regex keeps the captures in order (YYMMDD reading), the second —
reachable only if the first failed — reverses them (DDMMYY reading), and
otherwise the digits are kept as they stand. -/
def normalize_date (date : String) : String :=
  match findYmd6 date.toList with
  | some (a, b, c) => a ++ b ++ c
  | none =>
    match findSep6 date.toList with
    | some (a, b, c) => c ++ b ++ a
    | none => String.mk (date.toList.filter Char.isDigit)

/-- `SimpleValidator::calculate_date_similarity` (`src/ml/simple_validator.rs:294`). -/
def calculate_date_similarity (date1 date2 : String) : ℚ :=
  calculate_similarity (normalize_date date1) (normalize_date date2)

/-- `SimpleValidator::validate_consistency` (`src/ml/simple_validator.rs:166`)
represented as the list of contributed similarity terms: the source
accumulates `confidence` and `checks` in lockstep, so its state is exactly
the sum and the length of this list. -/
def consistency_terms (m : MrzData) (v : VisualData) : List ℚ :=
  (if m.document_number ≠ "" ∧ v.document_number ≠ "" then
    [calculate_similarity m.document_number v.document_number] else []) ++
  (if m.surname ≠ "" ∧ v.surname ≠ "" then
    [calculate_similarity (rustToUppercase m.surname) (rustToUppercase v.surname)] else []) ++
  (if m.date_of_birth ≠ "" ∧ v.date_of_birth ≠ "" then
    [calculate_date_similarity m.date_of_birth v.date_of_birth] else []) ++
  (if m.gender ≠ "" ∧ v.gender ≠ "" then
    [if m.gender = v.gender then (1 : ℚ) else 0] else []) ++
  (if m.date_of_expiry ≠ "" ∧ v.date_of_expiry ≠ "" then
    [calculate_date_similarity m.date_of_expiry v.date_of_expiry] else [])

/-- `SimpleValidator::validate_consistency` (`src/ml/simple_validator.rs:166`):
the average over the performed checks, or the deliberate 0.3 default when no
field pair was comparable. -/
def validate_consistency (m : MrzData) (v : VisualData) : ℚ :=
  let terms := consistency_terms m v
  if 0 < terms.length then terms.sum / (terms.length : ℚ) else 0.3

/-- `SimpleValidator::detect_fraud` (`src/ml/simple_validator.rs:337`). -/
def detect_fraud (m : MrzData) (v : VisualData) : ℚ :=
  let fraud_likelihood : ℚ :=
    (if validate_consistency m v < 0.6 then 0.4 else 0) +
    (if strContainsSub v.date_of_birth "00/00" || strContainsSub v.date_of_birth "99/99" then
      0.4 else 0) +
    (if strContainsSub v.date_of_expiry "201" || strContainsSub v.date_of_expiry "200" then
      0.2 else 0)
  1 - clamp01 fraud_likelihood

/-- `SimpleValidator::validate` (`src/ml/simple_validator.rs:38`): five
sub-scores (security is the 0.85 placeholder), and overall validity the
conjunction of four per-score thresholds. -/
def validate (m : MrzData) (v : VisualData) : Bool × ValidationConfidence :=
  let mrz_confidence := validate_mrz m
  let visual_confidence := validate_visual_data v
  let consistency_confidence := validate_consistency m v
  let security_feature_confidence : ℚ := 0.85
  let fraud_detection_confidence := detect_fraud m v
  let is_valid :=
    decide (mrz_confidence > 0.7) && decide (visual_confidence > 0.6) &&
    decide (consistency_confidence > 0.7) && decide (fraud_detection_confidence > 0.8)
  (is_valid,
   ⟨mrz_confidence, visual_confidence, consistency_confidence,
    security_feature_confidence, fraud_detection_confidence⟩)

theorem calculate_similarity_mem_01 (a b : String) :
    0 ≤ calculate_similarity a b ∧ calculate_similarity a b ≤ 1 := by
  simp only [calculate_similarity]
  split_ifs
  · norm_num
  · norm_num
  · exact ⟨clamp01_nonneg _, clamp01_le_one _⟩

theorem consistency_terms_mem_01 (m : MrzData) (v : VisualData) :
    ∀ x ∈ consistency_terms m v, 0 ≤ x ∧ x ≤ 1 := by
  intro x hx
  unfold consistency_terms at hx
  simp only [List.mem_append] at hx
  rcases hx with ((((h | h) | h) | h) | h) <;>
  · split_ifs at h <;> simp_all <;>
    exact calculate_similarity_mem_01 _ _

theorem validate_consistency_mem_01 (m : MrzData) (v : VisualData) :
    0 ≤ validate_consistency m v ∧ validate_consistency m v ≤ 1 := by
  simp only [validate_consistency]
  split_ifs with h
  · have hmem := consistency_terms_mem_01 m v
    have hlen : (0 : ℚ) < ((consistency_terms m v).length : ℚ) := by
      exact_mod_cast h
    constructor
    · apply div_nonneg _ (le_of_lt hlen)
      exact List.sum_nonneg (fun x hx => (hmem x hx).1)
    · rw [div_le_one hlen]
      calc (consistency_terms m v).sum
          ≤ (consistency_terms m v).length • (1 : ℚ) :=
            List.sum_le_card_nsmul _ 1 (fun x hx => (hmem x hx).2)
        _ = ((consistency_terms m v).length : ℚ) := by simp
  · norm_num

end SimpleValidator

/-- Claim C7 — every sub-score `SimpleValidator::validate` returns lies in
`[0, 1]`, for arbitrary (possibly all-empty) inputs. -/
theorem C7_simple_validator_scores_in_unit_interval (m : MrzData) (v : VisualData) :
    (0 ≤ (SimpleValidator.validate m v).2.mrz_confidence ∧
      (SimpleValidator.validate m v).2.mrz_confidence ≤ 1) ∧
    (0 ≤ (SimpleValidator.validate m v).2.visual_confidence ∧
      (SimpleValidator.validate m v).2.visual_confidence ≤ 1) ∧
    (0 ≤ (SimpleValidator.validate m v).2.consistency_confidence ∧
      (SimpleValidator.validate m v).2.consistency_confidence ≤ 1) ∧
    (0 ≤ (SimpleValidator.validate m v).2.security_feature_confidence ∧
      (SimpleValidator.validate m v).2.security_feature_confidence ≤ 1) ∧
    (0 ≤ (SimpleValidator.validate m v).2.fraud_detection_confidence ∧
      (SimpleValidator.validate m v).2.fraud_detection_confidence ≤ 1) := by
  refine ⟨⟨?_, ?_⟩, ⟨?_, ?_⟩, ?_, ⟨?_, ?_⟩, ⟨?_, ?_⟩⟩
  · exact clamp01_nonneg _
  · exact clamp01_le_one _
  · exact clamp01_nonneg _
  · exact clamp01_le_one _
  · exact SimpleValidator.validate_consistency_mem_01 m v
  · norm_num [SimpleValidator.validate]
  · norm_num [SimpleValidator.validate]
  · show 0 ≤ 1 - clamp01 _
    have := clamp01_le_one ((if SimpleValidator.validate_consistency m v < 0.6 then (0.4 : ℚ) else 0) +
      (if strContainsSub v.date_of_birth "00/00" || strContainsSub v.date_of_birth "99/99" then (0.4 : ℚ) else 0) +
      (if strContainsSub v.date_of_expiry "201" || strContainsSub v.date_of_expiry "200" then (0.2 : ℚ) else 0))
    linarith
  · show 1 - clamp01 _ ≤ 1
    have := clamp01_nonneg ((if SimpleValidator.validate_consistency m v < 0.6 then (0.4 : ℚ) else 0) +
      (if strContainsSub v.date_of_birth "00/00" || strContainsSub v.date_of_birth "99/99" then (0.4 : ℚ) else 0) +
      (if strContainsSub v.date_of_expiry "201" || strContainsSub v.date_of_expiry "200" then (0.2 : ℚ) else 0))
    linarith

/-- Claim C4 (amended) — `SimpleValidator::validate` does not use a weighted
sum at all: its overall boolean is the conjunction of four per-score
thresholds (mrz > 0.7, visual > 0.6, consistency > 0.7, fraud > 0.8), the
0.85 security placeholder playing no part. -/
theorem C4_simple_validate_is_threshold_conjunction (m : MrzData) (v : VisualData) :
    ((SimpleValidator.validate m v).1 = true ↔
      (SimpleValidator.validate_mrz m > 0.7 ∧
       SimpleValidator.validate_visual_data v > 0.6 ∧
       SimpleValidator.validate_consistency m v > 0.7 ∧
       SimpleValidator.detect_fraud m v > 0.8)) ∧
    (SimpleValidator.validate m v).2.security_feature_confidence = 0.85 := by
  constructor
  · simp [SimpleValidator.validate, and_assoc]
  · rfl

/-- Counterexample to claim C4 as stated: a concrete input on which
`SimpleValidator::validate` returns `is_valid = true` although the weighted
sum 0.30·mrz + 0.25·visual + 0.25·consistency of the returned sub-scores is
0.64625 < 0.75 (scores: mrz 0.8, visual 0.625, consistency 1.0). -/
theorem C4_weighted_sum_counterexample :
    (SimpleValidator.validate
      { document_number := "D123", surname := "SMITH", given_names := "JOHN",
        date_of_birth := "800101", date_of_expiry := "300101" }
      { document_number := "D123", surname := "SMITH",
        date_of_birth := "800101", date_of_expiry := "300101",
        date_of_issue := "150102" }).1 = true ∧
    ¬ (0.30 * (SimpleValidator.validate
      { document_number := "D123", surname := "SMITH", given_names := "JOHN",
        date_of_birth := "800101", date_of_expiry := "300101" }
      { document_number := "D123", surname := "SMITH",
        date_of_birth := "800101", date_of_expiry := "300101",
        date_of_issue := "150102" }).2.mrz_confidence +
      0.25 * (SimpleValidator.validate
      { document_number := "D123", surname := "SMITH", given_names := "JOHN",
        date_of_birth := "800101", date_of_expiry := "300101" }
      { document_number := "D123", surname := "SMITH",
        date_of_birth := "800101", date_of_expiry := "300101",
        date_of_issue := "150102" }).2.visual_confidence +
      0.25 * (SimpleValidator.validate
      { document_number := "D123", surname := "SMITH", given_names := "JOHN",
        date_of_birth := "800101", date_of_expiry := "300101" }
      { document_number := "D123", surname := "SMITH",
        date_of_birth := "800101", date_of_expiry := "300101",
        date_of_issue := "150102" }).2.consistency_confidence ≥ 0.75) := by
  have hc : SimpleValidator.country_doc_len "" = none := rfl
  constructor
  · simp [SimpleValidator.validate, SimpleValidator.validate_mrz,
      hc, SimpleValidator.validate_visual_data,
      SimpleValidator.validate_consistency, SimpleValidator.consistency_terms,
      SimpleValidator.calculate_similarity, SimpleValidator.calculate_date_similarity,
      SimpleValidator.normalize_date, SimpleValidator.findYmd6, SimpleValidator.matchYmd6At,
      SimpleValidator.twoDigits, SimpleValidator.optSepAlts, SimpleValidator.isDateSep,
      SimpleValidator.detect_fraud, strContainsSub, rustToUppercase, clamp01, rustLen]
    norm_num
  · simp [SimpleValidator.validate, SimpleValidator.validate_mrz,
      hc, SimpleValidator.validate_visual_data,
      SimpleValidator.validate_consistency, SimpleValidator.consistency_terms,
      SimpleValidator.calculate_similarity, SimpleValidator.calculate_date_similarity,
      SimpleValidator.normalize_date, SimpleValidator.findYmd6, SimpleValidator.matchYmd6At,
      SimpleValidator.twoDigits, SimpleValidator.optSepAlts, SimpleValidator.isDateSep,
      SimpleValidator.detect_fraud, strContainsSub, rustToUppercase, clamp01, rustLen]
    norm_num

/-! ## `MlValidator` (`src/ml/validation.rs`), claim C3

`ml/mod.rs` comments this module out of the build, but the file is part of
the sources the claims cite.  Where its code calls `Option` methods on the
`String` fields of `crate::models::VisualData`, the embedding follows the
documented rewrites in `src/fixes.rs`: `field.is_some()` becomes
`!field.is_empty()` and `field.as_ref().unwrap()` becomes `&field`. -/

namespace MlValidator

/-- The `country_rules` document-number-length table built by
`MlValidator::new` (`src/ml/validation.rs:69`): USA 9, GBR 9, DEU 10, ESP 9,
FRA 9. -/
def country_doc_len (country : String) : Option Nat :=
  if country = "USA" then some 9
  else if country = "GBR" then some 9
  else if country = "DEU" then some 10
  else if country = "ESP" then some 9
  else if country = "FRA" then some 9
  else none

/-- `MlValidator::validate_mrz` (`src/ml/validation.rs:197`). -/
def validate_mrz (m : MrzData) : ℚ :=
  let base : ℚ :=
    (if m.document_number ≠ "" then 0.2 else 0) +
    (if m.surname ≠ "" ∧ m.given_names ≠ "" then 0.2 else 0) +
    (if m.nationality ≠ "" then 0.1 else 0) +
    (if m.date_of_birth ≠ "" then 0.2 else 0) +
    (if m.gender ≠ "" then 0.1 else 0) +
    (if m.date_of_expiry ≠ "" then 0.2 else 0)
  let adjusted : ℚ :=
    match country_doc_len m.issuing_country with
    | some len => if rustLen m.document_number = len then base + 0.1 else base - 0.2
    | none => base
  clamp01 adjusted

/-- `MlValidator::validate_visual_data` (`src/ml/validation.rs:244`), with the
`is_some()` calls on `String` fields read as non-emptiness per `fixes.rs`. -/
def validate_visual_data (v : VisualData) : ℚ :=
  let confidence : ℚ :=
    (if v.document_number ≠ "" then 0.15 else 0) +
    (if v.surname ≠ "" ∨ v.given_names ≠ "" then 0.15 else 0) +
    (if v.date_of_birth ≠ "" then 0.15 else 0) +
    (if v.gender ≠ "" then 0.15 else 0) +
    (if v.date_of_expiry ≠ "" then 0.15 else 0) +
    (if v.date_of_issue ≠ "" then 0.1 else 0) +
    (if v.place_of_birth.isSome then 0.1 else 0) +
    (if v.authority.isSome then 0.05 else 0)
  clamp01 confidence

/-- `MlValidator::calculate_text_similarity` (`src/ml/validation.rs:350`):
uppercase both, 1 on equality, else the count of characters of the first
string occurring in the second over the larger byte length (0 when both are
empty). -/
def calculate_text_similarity (text1 text2 : String) : ℚ :=
  let t1 := rustToUppercase text1
  let t2 := rustToUppercase text2
  if t1 = t2 then 1
  else
    let common_chars := (t1.toList.filter (fun c => strContainsChar t2 c)).length
    let max_length := max (rustLen t1) (rustLen t2)
    if max_length = 0 then 0
    else (common_chars : ℚ) / (max_length : ℚ)

/-- `MlValidator::calculate_date_similarity` (`src/ml/validation.rs:370`):
drop slashes, dashes and dots, then compare as text. -/
def calculate_date_similarity (date1 date2 : String) : ℚ :=
  calculate_text_similarity
    (String.mk (date1.toList.filter (fun c => c ≠ '/' ∧ c ≠ '-' ∧ c ≠ '.')))
    (String.mk (date2.toList.filter (fun c => c ≠ '/' ∧ c ≠ '-' ∧ c ≠ '.')))

/-- `MlValidator::validate_consistency` (`src/ml/validation.rs:285`) as the
list of contributed terms; the source's `confidence` and `checks` are its sum
and length. -/
def consistency_terms (m : MrzData) (v : VisualData) : List ℚ :=
  (if m.document_number ≠ "" ∧ v.document_number ≠ "" then
    [calculate_text_similarity m.document_number v.document_number] else []) ++
  (if m.surname ≠ "" ∧ v.surname ≠ "" then
    [calculate_text_similarity m.surname v.surname] else []) ++
  (if m.date_of_birth ≠ "" ∧ v.date_of_birth ≠ "" then
    [calculate_date_similarity m.date_of_birth v.date_of_birth] else []) ++
  (if m.gender ≠ "" ∧ v.gender ≠ "" then
    [if m.gender = v.gender then (1 : ℚ) else 0] else []) ++
  (if m.date_of_expiry ≠ "" ∧ v.date_of_expiry ≠ "" then
    [calculate_date_similarity m.date_of_expiry v.date_of_expiry] else [])

/-- `MlValidator::validate_consistency` (`src/ml/validation.rs:285`). -/
def validate_consistency (m : MrzData) (v : VisualData) : ℚ :=
  let terms := consistency_terms m v
  if 0 < terms.length then terms.sum / (terms.length : ℚ) else 0.3

/-- `MlValidator::calculate_field_completeness` (`src/ml/validation.rs:584`):
the filled fraction of ten essential fields, as a percentage. -/
def calculate_field_completeness (v : VisualData) : ℚ :=
  let filled : ℚ :=
    (if v.document_type ≠ "" then 1 else 0) +
    (if v.issuing_country ≠ "" then 1 else 0) +
    (if v.document_number ≠ "" then 1 else 0) +
    (if v.surname ≠ "" then 1 else 0) +
    (if v.given_names ≠ "" then 1 else 0) +
    (if v.nationality ≠ "" then 1 else 0) +
    (if v.date_of_birth ≠ "" then 1 else 0) +
    (if v.gender ≠ "" then 1 else 0) +
    (if v.date_of_expiry ≠ "" then 1 else 0) +
    (match v.place_of_birth with | some p => if p ≠ "" then 1 else 0 | none => 0)
  filled / 10 * 100

/-- `MlValidator::detect_security_features` (`src/ml/validation.rs:379`), with
`fixes.rs` readings of the `Option` calls on `String` fields.  Note the
source compares the percentage-valued completeness against `0.7`. -/
def detect_security_features (v : VisualData) : ℚ :=
  let s1 : ℚ := if v.document_number ≠ "" ∧ rustLen v.document_number > 4 then 0.1 else 0
  let d1 : ℚ := if v.document_number ≠ "" ∧ rustLen v.document_number > 4 then 1 else 0
  let contains_mrz_pattern :=
    strContainsSub v.document_number "<" || strContainsSub v.document_number ">"
  let s2 : ℚ := if contains_mrz_pattern then 0.15 else 0
  let d2 : ℚ := if contains_mrz_pattern then 1 else 0
  let s3 : ℚ := if v.document_type = "P" then 0.15 else 0
  let d3 : ℚ := if v.document_type = "P" then 1 else 0
  let s4 : ℚ := if v.issuing_country ≠ "" then 0.15 else 0
  let d4 : ℚ := if v.issuing_country ≠ "" then 1 else 0
  let s5 : ℚ := 0.10
  let d5 : ℚ := 1
  let s6 : ℚ := if v.surname ≠ "" ∧ v.given_names ≠ "" then 0.10 else 0
  let d6 : ℚ := if v.surname ≠ "" ∧ v.given_names ≠ "" then 1 else 0
  let s7 : ℚ := 0.10
  let d7 : ℚ := 1
  let s8 : ℚ := if calculate_field_completeness v > 0.7 then 0.15 else 0
  let security_score := s1 + s2 + s3 + s4 + s5 + s6 + s7 + s8
  let detection_ratio := (d1 + d2 + d3 + d4 + d5 + d6 + d7) / 7
  let final_score := security_score * 0.7 + detection_ratio * 0.3
  max (min final_score 1) 0

/-- The `(n as f32).powf(1.5)` of `MlValidator::detect_fraud`
(`src/ml/validation.rs:549`).  The exact value `n^(3/2)` is irrational
whenever `n` is not a perfect square, so this rational model returns
`n * Nat.sqrt n`, which agrees with the source exactly at perfect squares
(including every input any theorem below evaluates: the indicator count there
is always 0); no claim in this development depends on its value elsewhere. -/
def powf_three_halves (n : Nat) : ℚ := (n : ℚ) * (Nat.sqrt n : ℚ)

/-- A non-ASCII character, used for the `has_non_latin` script-mixing probe of
`detect_fraud`; Rust tests `!c.is_ascii() && c.is_alphabetic()`, and the
model treats every non-ASCII character as alphabetic (the sources only ever
feed it ASCII). -/
def isNonAsciiAlphabetic (c : Char) : Bool := decide (128 ≤ c.toNat)

/-- `MlValidator::detect_fraud` (`src/ml/validation.rs:463`): start at 1.0,
deduct per indicator, then apply the exponential indicator penalty and clamp
(`.min(1.0).max(0.0)` in source order). -/
def detect_fraud (m : MrzData) (v : VisualData) : ℚ :=
  let nameBad := m.surname ≠ "" ∧ v.surname ≠ "" ∧
    calculate_text_similarity m.surname v.surname < 0.7
  let docBad := m.document_number ≠ "" ∧ v.document_number ≠ "" ∧
    calculate_text_similarity
      (String.mk (m.document_number.toList.filter isAsciiAlphanum))
      (String.mk (v.document_number.toList.filter isAsciiAlphanum)) < 0.9
  let dobBad := m.date_of_birth ≠ "" ∧ v.date_of_birth ≠ "" ∧
    calculate_date_similarity m.date_of_birth v.date_of_birth < 0.8
  let expiredBad := v.date_of_expiry ≠ "" ∧
    (strContainsSub v.date_of_expiry "201" ∨ strContainsSub v.date_of_expiry "200")
  let impossibleDob := v.date_of_birth ≠ "" ∧
    (strContainsSub v.date_of_birth "00/00" ∨ strContainsSub v.date_of_birth "99/99")
  let scriptMix := v.surname ≠ "" ∧
    v.surname.toList.any Char.isAlpha ∧ v.surname.toList.any isNonAsciiAlphabetic
  let confidence : ℚ := 1 -
    (if nameBad then 0.15 else 0) - (if docBad then 0.3 else 0) -
    (if dobBad then 0.15 else 0) - (if expiredBad then 0.2 else 0) -
    (if impossibleDob then 0.4 else 0) - (if scriptMix then 0.05 else 0)
  let indicators : Nat :=
    (if nameBad then 1 else 0) + (if docBad then 2 else 0) +
    (if dobBad then 1 else 0) + (if expiredBad then 1 else 0) +
    (if impossibleDob then 2 else 0) + (if scriptMix then 1 else 0)
  let confidence :=
    if 0 < indicators then
      confidence * (1 - min (0.1 * powf_three_halves indicators) 0.9)
    else confidence
  max (min confidence 1) 0

/-- `MlValidator::validate` (`src/ml/validation.rs:114`) with its three
early-exit return points.  The weights resolve from the `model_weights` map
built in `new()`: `mrz_checksum` 0.30, `visual_consistency` 0.25,
`security_features` 0.25, `fraud_detection` 0.20; the key `data_consistency`
is never inserted, so its lookup falls back to the `unwrap_or` default
0.25. -/
def validate (m : MrzData) (v : VisualData) : Bool × ValidationConfidence :=
  let mrz_confidence := validate_mrz m
  let mrz_weight : ℚ := 0.30
  if mrz_confidence < 0.30 ∧ mrz_confidence * mrz_weight < 0.10 then
    (false, ⟨mrz_confidence, 0, 0, 0, 0⟩)
  else
    let visual_confidence := validate_visual_data v
    let visual_weight : ℚ := 0.25
    let max_possible := mrz_confidence * mrz_weight + visual_confidence * visual_weight +
      1 * (1 - mrz_weight - visual_weight)
    if max_possible < 0.75 then
      (false, ⟨mrz_confidence, visual_confidence, 0, 0, 0⟩)
    else
      let consistency_confidence := validate_consistency m v
      let consistency_weight : ℚ := 0.25
      let current_confidence := mrz_confidence * mrz_weight +
        visual_confidence * visual_weight + consistency_confidence * consistency_weight
      let max_remaining_weight := 1 - mrz_weight - visual_weight - consistency_weight
      if current_confidence + max_remaining_weight < 0.75 then
        (false, ⟨mrz_confidence, visual_confidence, consistency_confidence, 0, 0⟩)
      else
        let security_feature_confidence := detect_security_features v
        let fraud_detection_confidence := detect_fraud m v
        let overall_confidence := current_confidence +
          security_feature_confidence * 0.25 + fraud_detection_confidence * 0.20
        (decide (overall_confidence ≥ 0.75),
         ⟨mrz_confidence, visual_confidence, consistency_confidence,
          security_feature_confidence, fraud_detection_confidence⟩)

/-- The full evaluation path the claim compares against, following the spec's
words: evaluate all five sub-scores unconditionally and compare the full
weighted sum with the 0.75 threshold. -/
def validate_full_evaluation (m : MrzData) (v : VisualData) : Bool × ValidationConfidence :=
  let mrz_confidence := validate_mrz m
  let visual_confidence := validate_visual_data v
  let consistency_confidence := validate_consistency m v
  let security_feature_confidence := detect_security_features v
  let fraud_detection_confidence := detect_fraud m v
  let overall_confidence := mrz_confidence * 0.30 + visual_confidence * 0.25 +
    consistency_confidence * 0.25 + security_feature_confidence * 0.25 +
    fraud_detection_confidence * 0.20
  (decide (overall_confidence ≥ 0.75),
   ⟨mrz_confidence, visual_confidence, consistency_confidence,
    security_feature_confidence, fraud_detection_confidence⟩)

end MlValidator

/-- Claim C3 (amended) — the early exits of `MlValidator::validate` are
one-sided: every early exit returns `is_valid = false`, so whenever
`validate` reports `true` it took the full path and returns exactly what the
full five-score weighted evaluation returns.  (The converse fails; see the
counterexample.) -/
theorem C3_ml_validate_true_implies_full_evaluation (m : MrzData) (v : VisualData)
    (h : (MlValidator.validate m v).1 = true) :
    MlValidator.validate m v = MlValidator.validate_full_evaluation m v := by
  by_cases h1 : (MlValidator.validate_mrz m < 0.30 ∧
      MlValidator.validate_mrz m * 0.30 < 0.10)
  · have hf : (MlValidator.validate m v).1 = false := by
      simp only [MlValidator.validate, if_pos h1]
    rw [h] at hf
    cases hf
  by_cases h2 : (MlValidator.validate_mrz m * 0.30 +
      MlValidator.validate_visual_data v * 0.25 + 1 * (1 - 0.30 - 0.25) < 0.75)
  · have hf : (MlValidator.validate m v).1 = false := by
      simp only [MlValidator.validate, if_neg h1, if_pos h2]
    rw [h] at hf
    cases hf
  by_cases h3 : (MlValidator.validate_mrz m * 0.30 +
      MlValidator.validate_visual_data v * 0.25 +
      MlValidator.validate_consistency m v * 0.25 + (1 - 0.30 - 0.25 - 0.25) < 0.75)
  · have hf : (MlValidator.validate m v).1 = false := by
      simp only [MlValidator.validate, if_neg h1, if_neg h2, if_pos h3]
    rw [h] at hf
    cases hf
  · simp only [MlValidator.validate, MlValidator.validate_full_evaluation,
      if_neg h1, if_neg h2, if_neg h3]

/-- Counterexample to claim C3 as stated: with an MRZ record carrying only a
document number (mrz score 0.2) and a fully populated matching visual record,
the first early exit returns `is_valid = false`, yet evaluating all five
sub-scores gives a weighted sum of about 0.945 ≥ 0.75, so the full evaluation
returns `is_valid = true` — the early exit changes the answer. -/
theorem C3_early_exit_changes_is_valid_counterexample :
    (MlValidator.validate { document_number := "D123" }
      { document_type := "P", issuing_country := "USA", document_number := "D123",
        surname := "SMITH", given_names := "JOHN", nationality := "USA",
        date_of_birth := "01/01/1980", gender := "M", date_of_expiry := "01/01/2030",
        date_of_issue := "01/01/2020", place_of_birth := some "PARIS",
        authority := some "PREF" }).1 = false ∧
    (MlValidator.validate_full_evaluation { document_number := "D123" }
      { document_type := "P", issuing_country := "USA", document_number := "D123",
        surname := "SMITH", given_names := "JOHN", nationality := "USA",
        date_of_birth := "01/01/1980", gender := "M", date_of_expiry := "01/01/2030",
        date_of_issue := "01/01/2020", place_of_birth := some "PARIS",
        authority := some "PREF" }).1 = true := by
  have hc : MlValidator.country_doc_len "" = none := rfl
  have hl : "D123".utf8ByteSize = 4 := rfl
  constructor
  · simp [MlValidator.validate, MlValidator.validate_mrz, hc, clamp01]
    norm_num
  · simp [MlValidator.validate_full_evaluation, MlValidator.validate_mrz, hc,
      MlValidator.validate_visual_data, MlValidator.validate_consistency,
      MlValidator.consistency_terms, MlValidator.calculate_text_similarity,
      MlValidator.calculate_date_similarity, MlValidator.detect_security_features,
      MlValidator.calculate_field_completeness, MlValidator.detect_fraud,
      MlValidator.powf_three_halves, MlValidator.isNonAsciiAlphabetic, hl,
      strContainsSub, strContainsChar, rustToUppercase, rustLen, clamp01, isAsciiAlphanum]
    norm_num

/-- Witness for C3: a fully matching record passes every gate, `validate`
returns `is_valid = true`, and the theorem then equates it with the full
evaluation. -/
theorem C3_ml_validate_true_implies_full_evaluation_witness :
    MlValidator.validate
      { document_number := "D123", surname := "SMITH", given_names := "JOHN",
        nationality := "USA", date_of_birth := "800101", gender := "M",
        date_of_expiry := "300101" }
      { document_type := "P", issuing_country := "USA", document_number := "D123",
        surname := "SMITH", given_names := "JOHN", nationality := "USA",
        date_of_birth := "800101", gender := "M", date_of_expiry := "300101",
        date_of_issue := "150102", place_of_birth := some "PARIS",
        authority := some "PREF" } =
    MlValidator.validate_full_evaluation
      { document_number := "D123", surname := "SMITH", given_names := "JOHN",
        nationality := "USA", date_of_birth := "800101", gender := "M",
        date_of_expiry := "300101" }
      { document_type := "P", issuing_country := "USA", document_number := "D123",
        surname := "SMITH", given_names := "JOHN", nationality := "USA",
        date_of_birth := "800101", gender := "M", date_of_expiry := "300101",
        date_of_issue := "150102", place_of_birth := some "PARIS",
        authority := some "PREF" } := by
  apply C3_ml_validate_true_implies_full_evaluation
  have hc : MlValidator.country_doc_len "" = none := rfl
  have hl : "D123".utf8ByteSize = 4 := rfl
  simp [MlValidator.validate, MlValidator.validate_mrz, hc,
    MlValidator.validate_visual_data, MlValidator.validate_consistency,
    MlValidator.consistency_terms, MlValidator.calculate_text_similarity,
    MlValidator.calculate_date_similarity, MlValidator.detect_security_features,
    MlValidator.calculate_field_completeness, MlValidator.detect_fraud,
    MlValidator.powf_three_halves, MlValidator.isNonAsciiAlphabetic, hl,
    strContainsSub, strContainsChar, rustToUppercase, rustLen, clamp01, isAsciiAlphanum]
  norm_num

/-! ## `MRTDVerifier` (`src/verification/mrtd.rs`), claim C10 -/

namespace MRTDVerifier

/-- `MRTDVerifier::validate_check_digit` (`src/verification/mrtd.rs:304`): a
placeholder that ignores both arguments and returns `true`. -/
def validate_check_digit (_data : String) (_check_digit : Char) : Bool := true

/-- Rust `Debug` rendering of `Option<DocumentFormat>` as interpolated by the
document-type issue message of `validate_mrz`. -/
def debugDocumentFormat : Option DocumentFormat → String
  | none => "None"
  | some .TD1 => "Some(TD1)"
  | some .TD2 => "Some(TD2)"
  | some .TD3 => "Some(TD3)"
  | some .MRVA => "Some(MRVA)"
  | some .MRVB => "Some(MRVB)"

/-- The `valid_doc_types` table of `validate_mrz` (`src/verification/mrtd.rs:188`). -/
def valid_doc_types : Option DocumentFormat → List String
  | some .TD1 | some .TD2 => ["ID", "A"]
  | some .TD3 => ["P"]
  | some .MRVA | some .MRVB => ["V"]
  | none => ["P", "ID", "A", "V"]

/-- The YYMMDD reassembly `validate_mrz` applies to the display-formatted
dates (`src/verification/mrtd.rs:219`): a three-word `DD MM YYYY` date
becomes `YY ++ MM ++ DD`, anything else becomes `"000000"`. -/
def date_for_check (date : String) : String :=
  let parts := rustSplitWhitespace date
  if parts.length = 3 then
    String.mk (((parts.getD 2 "").toList).drop 2) ++ (parts.getD 1 "") ++ (parts.getD 0 "")
  else "000000"

/-- The result record `MRTDVerifier::validate_mrz` builds
(`src/verification/mrtd.rs:184`): a document-type issue when the type does
not fit the format, four check-digit validations through the constant-`true`
placeholder, and a hard-coded `composite_check_valid = true`. -/
def validate_mrz_result (m : MrzData) : MrzValidationResult :=
  let doc_type_issues :=
    if ¬ (valid_doc_types m.document_format).contains m.document_type then
      [(⟨.Mrz, "Invalid document type '" ++ m.document_type ++ "' for format " ++
        debugDocumentFormat m.document_format⟩ : ValidationIssue)]
    else []
  let document_number_check_valid :=
    validate_check_digit m.document_number m.check_digits.document_number_check
  let date_of_birth_check_valid :=
    validate_check_digit (date_for_check m.date_of_birth) m.check_digits.date_of_birth_check
  let date_of_expiry_check_valid :=
    validate_check_digit (date_for_check m.date_of_expiry) m.check_digits.date_of_expiry_check
  let personal_number_check_valid :=
    match m.personal_number with
    | some personal_number =>
      validate_check_digit personal_number m.check_digits.personal_number_check
    | none => true
  let composite_check_valid := true
  { is_valid := document_number_check_valid && date_of_birth_check_valid &&
      date_of_expiry_check_valid && personal_number_check_valid && composite_check_valid
    document_number_check_valid := document_number_check_valid
    date_of_birth_check_valid := date_of_birth_check_valid
    date_of_expiry_check_valid := date_of_expiry_check_valid
    personal_number_check_valid := personal_number_check_valid
    composite_check_valid := composite_check_valid
    issues := doc_type_issues ++
      (if ¬ document_number_check_valid then
        [(⟨.Mrz, "Invalid document number check digit"⟩ : ValidationIssue)] else []) ++
      (if ¬ date_of_birth_check_valid then
        [(⟨.Mrz, "Invalid date of birth check digit"⟩ : ValidationIssue)] else []) ++
      (if ¬ date_of_expiry_check_valid then
        [(⟨.Mrz, "Invalid date of expiry check digit"⟩ : ValidationIssue)] else []) ++
      (if ¬ personal_number_check_valid then
        [(⟨.Mrz, "Invalid personal number check digit"⟩ : ValidationIssue)] else []) ++
      (if ¬ composite_check_valid then
        [(⟨.Mrz, "Invalid composite check digit"⟩ : ValidationIssue)] else []) }

/-- `MRTDVerifier::validate_mrz` (`src/verification/mrtd.rs:184`): always `Ok`. -/
def validate_mrz (m : MrzData) : Except PassportError MrzValidationResult :=
  Except.ok (validate_mrz_result m)

end MRTDVerifier

/-- Replace only the composite check character of an MRZ record. -/
def setCompositeCheck (m : MrzData) (c : Char) : MrzData :=
  { m with check_digits := { m.check_digits with composite_check := c } }

/-- Claim C10 — the composite check digit is never verified:
`MRTDVerifier::validate_check_digit` accepts every input pair, both
`MRTDVerifier::validate_mrz` and `MrzValidator::validate` report
`composite_check_valid = true` unconditionally, and changing the composite
check character changes neither validator's result. -/
theorem C10_composite_check_never_verified :
    (∀ (s : String) (c : Char), MRTDVerifier.validate_check_digit s c = true) ∧
    (∀ m : MrzData,
      MRTDVerifier.validate_mrz m = Except.ok (MRTDVerifier.validate_mrz_result m) ∧
      (MRTDVerifier.validate_mrz_result m).composite_check_valid = true) ∧
    (∀ (m : MrzData) (c : Char),
      MRTDVerifier.validate_mrz_result (setCompositeCheck m c) =
        MRTDVerifier.validate_mrz_result m) ∧
    (∀ (m : MrzData) (v : VisualData),
      (MrzValidator.validate_result m v).composite_check_valid = true) ∧
    (∀ (m : MrzData) (v : VisualData) (c : Char),
      MrzValidator.validate_result (setCompositeCheck m c) v =
        MrzValidator.validate_result m v) := by
  refine ⟨fun s c => rfl, fun m => ⟨rfl, rfl⟩, fun m c => rfl, fun m v => rfl, fun m v c => ?_⟩
  unfold MrzValidator.validate_result
  simp [setCompositeCheck, MrzValidator.cross_check_fields, MrzValidator.doc_number_check_ok,
    MrzValidator.dob_check_ok, MrzValidator.doe_check_ok, MrzValidator.personal_number_check_ok]

/-! ## The MRZ line locator (`src/processing/enhanced_ocr.rs`), claim C8 -/

namespace EnhancedOcr

/-- The `lt_count` of a line (`src/processing/enhanced_ocr.rs:354`). -/
def lt_count (s : String) : Nat := (s.toList.filter (fun c => c = '<')).length

/-- The `alphanum_count` of a line (`src/processing/enhanced_ocr.rs:355`);
Rust counts Unicode alphanumerics, the model the ASCII ones the inputs use. -/
def alphanum_count (s : String) : Nat := (s.toList.filter (fun c => c.isAlphanum)).length

/-- The candidate loop of `extract_mrz_lines_from_text`
(`src/processing/enhanced_ocr.rs:339`): trim each line, skip empties and
lines shorter than 20 characters, keep a line when (filler-count > 0 and
alphanumeric-count > 15) or (length ≥ 30 and alphanumeric-count strictly
greater than `length * 3 / 4` in integer division). -/
def collect_candidates : List String → List String
  | [] => []
  | line :: rest =>
    let cleaned := rustTrim line
    if cleaned = "" then collect_candidates rest
    else if cleaned.length < 20 then collect_candidates rest
    else if (lt_count cleaned > 0 ∧ alphanum_count cleaned > 15) ∨
        (cleaned.length ≥ 30 ∧ alphanum_count cleaned > cleaned.length * 3 / 4) then
      cleaned :: collect_candidates rest
    else collect_candidates rest

/-- Stable insertion into a descending-by-key list: an element goes before
the first strictly smaller key, after equal keys, which is exactly where a
stable sort leaves it. -/
def insertDescBy (key : String → Nat) (x : String) : List String → List String
  | [] => [x]
  | y :: ys => if key y ≤ key x then x :: y :: ys else y :: insertDescBy key x ys

/-- Rust's stable `Vec::sort_by` with the comparator `b_lt.cmp(&a_lt)`
(`src/processing/enhanced_ocr.rs:365`): sort descending by key, ties kept in
original order. -/
def sortDescBy (key : String → Nat) (l : List String) : List String :=
  l.foldr (insertDescBy key) []

/-- `extract_mrz_lines_from_text` (`src/processing/enhanced_ocr.rs:334`):
filter candidates, sort them descending by filler count, return the first
three of the sorted list. -/
def extract_mrz_lines_from_text (text : String) : List String :=
  (sortDescBy lt_count (collect_candidates (rustSplitPred (fun c => c = '\n') text))).take 3

/-- The qualification predicate of the amended claim, over an already-trimmed
line. -/
def line_qualifies (l : String) : Bool :=
  decide (l ≠ "" ∧ 20 ≤ l.length ∧ ((0 < lt_count l ∧ 15 < alphanum_count l) ∨
    (30 ≤ l.length ∧ l.length * 3 / 4 < alphanum_count l)))

/-- The amended claim's description of the locator: trim the lines, filter by
`line_qualifies`, stable-sort descending by filler count, keep the first
three, in sorted order. -/
def locator_amended_description (text : String) : List String :=
  (sortDescBy lt_count
    (((rustSplitPred (fun c => c = '\n') text).map rustTrim).filter line_qualifies)).take 3

/-- The locator as claim C8 states it: the same filter except that the second
disjunct asks for alphanumeric-count at least three quarters of the length
(`4 * alphanum ≥ 3 * length`), and the top three are put back in the order
they appeared in. -/
def locator_claimed_description (text : String) : List String :=
  let qualifying := ((rustSplitPred (fun c => c = '\n') text).map rustTrim).filter
    (fun l => decide (l ≠ "" ∧ 20 ≤ l.length ∧ ((0 < lt_count l ∧ 15 < alphanum_count l) ∨
      (30 ≤ l.length ∧ 3 * l.length ≤ 4 * alphanum_count l))))
  let top := (sortDescBy lt_count qualifying).take 3
  qualifying.filter (fun l => top.contains l)

theorem collect_candidates_eq_filter (lines : List String) :
    collect_candidates lines = (lines.map rustTrim).filter line_qualifies := by
  induction lines with
  | nil => rfl
  | cons line rest ih =>
    simp only [collect_candidates, List.map_cons, List.filter_cons]
    by_cases h1 : rustTrim line = ""
    · rw [if_pos h1]
      have : line_qualifies (rustTrim line) = false := by
        simp [line_qualifies, h1]
      simp [this, ih]
    · rw [if_neg h1]
      by_cases h2 : (rustTrim line).length < 20
      · rw [if_pos h2]
        have : line_qualifies (rustTrim line) = false := by
          simp only [line_qualifies, decide_eq_false_iff_not]
          intro hcon
          omega
        simp [this, ih]
      · rw [if_neg h2]
        by_cases h3 : (0 < lt_count (rustTrim line) ∧ 15 < alphanum_count (rustTrim line)) ∨
            (30 ≤ (rustTrim line).length ∧
              (rustTrim line).length * 3 / 4 < alphanum_count (rustTrim line))
        · rw [if_pos h3]
          have : line_qualifies (rustTrim line) = true := by
            simp only [line_qualifies, decide_eq_true_eq]
            exact ⟨h1, by omega, h3⟩
          simp [this, ih]
        · rw [if_neg h3]
          have : line_qualifies (rustTrim line) = false := by
            simp only [line_qualifies, decide_eq_false_iff_not]
            intro hcon
            exact h3 hcon.2.2
          simp [this, ih]

theorem mem_insertDescBy (key : String → Nat) (x a : String) (l : List String) :
    a ∈ insertDescBy key x l ↔ a = x ∨ a ∈ l := by
  induction l with
  | nil => simp [insertDescBy]
  | cons y ys ih =>
    simp only [insertDescBy]
    split_ifs
    · simp [List.mem_cons]
    · simp only [List.mem_cons, ih]
      tauto

theorem pairwise_insertDescBy (key : String → Nat) (x : String) (l : List String)
    (h : List.Pairwise (fun a b => key b ≤ key a) l) :
    List.Pairwise (fun a b => key b ≤ key a) (insertDescBy key x l) := by
  induction l with
  | nil => simp [insertDescBy]
  | cons y ys ih =>
    simp only [insertDescBy]
    split_ifs with hxy
    · refine List.Pairwise.cons ?_ h
      intro b hb
      rcases List.mem_cons.mp hb with hb | hb
      · subst hb
        exact hxy
      · have := (List.pairwise_cons.mp h).1 b hb
        omega
    · refine List.Pairwise.cons ?_ (ih (List.pairwise_cons.mp h).2)
      intro b hb
      rcases (mem_insertDescBy key x b ys).mp hb with hb | hb
      · subst hb
        omega
      · exact (List.pairwise_cons.mp h).1 b hb

theorem sortDescBy_pairwise (key : String → Nat) (l : List String) :
    List.Pairwise (fun a b => key b ≤ key a) (sortDescBy key l) := by
  induction l with
  | nil => exact List.Pairwise.nil
  | cons x xs ih => exact pairwise_insertDescBy key x _ ih

end EnhancedOcr

/-- Claim C8 (amended) — the locator keeps exactly the trimmed non-empty
lines of length ≥ 20 satisfying (filler > 0 ∧ alphanumerics > 15) ∨
(length ≥ 30 ∧ alphanumerics > ⌊3·length/4⌋), stable-sorts them descending by
filler count, and returns the first three of the sorted list — in descending
filler order, not in original text order. -/
theorem C8_locator_filter_and_sorted_output (text : String) :
    EnhancedOcr.extract_mrz_lines_from_text text =
      EnhancedOcr.locator_amended_description text ∧
    List.Pairwise (fun a b => EnhancedOcr.lt_count b ≤ EnhancedOcr.lt_count a)
      (EnhancedOcr.extract_mrz_lines_from_text text) := by
  constructor
  · unfold EnhancedOcr.extract_mrz_lines_from_text EnhancedOcr.locator_amended_description
    rw [EnhancedOcr.collect_candidates_eq_filter]
  · unfold EnhancedOcr.extract_mrz_lines_from_text
    exact List.Pairwise.sublist (List.take_sublist _ _) (EnhancedOcr.sortDescBy_pairwise _ _)

/-- Counterexample to claim C8 as stated: on three lines A (20 chars, 4
fillers), B (24 chars, 8 fillers) and C (32 chars, 24 alphanumerics, no
filler) the code returns `[B, A]` — sorted order, C excluded by the strict
`>` on `length * 3 / 4` — while the claim predicts `[A, B, C]` (C admitted by
`≥ three quarters`, and original text order restored). -/
theorem C8_locator_order_counterexample :
    EnhancedOcr.extract_mrz_lines_from_text
      "ABCDEFGHIJKLMNOP<<<<\nQRSTUVWXYZABCDEF<<<<<<<<\nABCDEFGHIJKLMNOPQRSTUVWX........" =
      ["QRSTUVWXYZABCDEF<<<<<<<<", "ABCDEFGHIJKLMNOP<<<<"] ∧
    EnhancedOcr.locator_claimed_description
      "ABCDEFGHIJKLMNOP<<<<\nQRSTUVWXYZABCDEF<<<<<<<<\nABCDEFGHIJKLMNOPQRSTUVWX........" =
      ["ABCDEFGHIJKLMNOP<<<<", "QRSTUVWXYZABCDEF<<<<<<<<",
       "ABCDEFGHIJKLMNOPQRSTUVWX........"] ∧
    EnhancedOcr.extract_mrz_lines_from_text
      "ABCDEFGHIJKLMNOP<<<<\nQRSTUVWXYZABCDEF<<<<<<<<\nABCDEFGHIJKLMNOPQRSTUVWX........" ≠
    EnhancedOcr.locator_claimed_description
      "ABCDEFGHIJKLMNOP<<<<\nQRSTUVWXYZABCDEF<<<<<<<<\nABCDEFGHIJKLMNOPQRSTUVWX........" := by
  refine ⟨by decide, by decide, by decide⟩

/-! ## `OcrProcessor::extract_mrz` TD3 decode (`src/processing/ocr.rs`), claim C2 -/

namespace Ocr

/-- Two-digit zero-padded rendering, the `{:02}` format of the date rebuilds
(every value formatted this way in the sources is below 100). -/
def pad2 (n : Nat) : String :=
  String.mk [Char.ofNat (48 + n / 10 % 10), Char.ofNat (48 + n % 10)]

/-- Four-digit zero-padded rendering, the `{:04}` format of the full years
(every value formatted this way in the sources is between 1900 and 2099). -/
def pad4 (n : Nat) : String :=
  String.mk [Char.ofNat (48 + n / 1000 % 10), Char.ofNat (48 + n / 100 % 10),
    Char.ofNat (48 + n / 10 % 10), Char.ofNat (48 + n % 10)]

/-- `OcrProcessor::clean_mrz_alphanumeric_field` (`src/processing/ocr.rs:54`):
uppercase, remap the digit-lookalike letters, keep only alphanumerics. -/
def clean_mrz_alphanumeric_field (field : String) : String :=
  String.mk ((field.toList.map (fun c =>
    let c := c.toUpper
    if c = 'I' ∨ c = 'L' ∨ c = '|' then '1'
    else if c = 'Z' then '2'
    else if c = 'S' then '5'
    else if c = 'G' then '6'
    else if c = 'B' then '8'
    else c)).filter isAsciiAlphanum)

/-- `OcrProcessor::clean_mrz_alpha_field` (`src/processing/ocr.rs:362`):
uppercase and remap digits to the letters they are confused with (`9` has no
mapping and passes through). -/
def clean_mrz_alpha_field (field : String) : String :=
  String.mk (field.toList.map (fun c =>
    let c := c.toUpper
    if c = '0' then 'O'
    else if c = '1' then 'I'
    else if c = '2' then 'Z'
    else if c = '3' then 'E'
    else if c = '4' then 'A'
    else if c = '5' then 'S'
    else if c = '6' then 'G'
    else if c = '7' then 'T'
    else if c = '8' then 'B'
    else c))

/-- The per-character cleanup table of `parse_mrz_date`
(`src/processing/ocr.rs:600`): aggressive digit normalization, any other
non-digit becomes `0`. -/
def mrz_digit_map (c : Char) : Char :=
  if c = 'O' ∨ c = 'Q' ∨ c = 'D' ∨ c = 'C' then '0'
  else if c = 'I' ∨ c = 'L' ∨ c = '|' ∨ c = '!' ∨ c = 'l' ∨ c = 'i' then '1'
  else if c = 'Z' ∨ c = 'z' then '2'
  else if c = 'E' ∨ c = 'e' then '3'
  else if c = 'A' ∨ c = 'a' then '4'
  else if c = 'S' ∨ c = 's' then '5'
  else if c = 'G' ∨ c = 'b' then '6'
  else if c = 'T' ∨ c = 't' then '7'
  else if c = 'B' ∨ c = 'R' then '8'
  else if c = 'g' ∨ c = 'q' then '9'
  else if c.isDigit then c
  else '0'

/-- A separator of the `parse_visual_date` separated-date regex: slash, dot,
space or dash. -/
def isVisualSep (c : Char) : Bool := c = '/' || c = '.' || c = ' ' || c = '-'

/-- Exactly `n` leading digits as a capture. -/
def takeDigits (n : Nat) (l : List Char) : Option (String × List Char) :=
  let pre := l.take n
  if pre.length = n ∧ pre.all Char.isDigit then some (String.mk pre, l.drop n) else none

/-- Greedy capture alternatives for a digit run quantifier: the lengths are
tried longest first, as the regex crate's greedy `{lo,hi}` does. -/
def digitsAlts (ns : List Nat) (l : List Char) : List (String × List Char) :=
  ns.filterMap (fun n => takeDigits n l)

/-- Greedy alternatives of a whitespace star: drop the longest whitespace
prefix first, backtrack one character at a time. -/
def wsAlts (l : List Char) : List (List Char) :=
  let k := (l.takeWhile Char.isWhitespace).length
  (List.range (k + 1)).reverse.map (fun i => l.drop i)

/-- Match of the `parse_visual_date` separated-date regex (one-or-two digits,
whitespace star, separator, whitespace star, one-or-two digits, whitespace
star, separator, whitespace star, two-to-four digits) at one position, with
greedy backtracking. -/
def matchSepDateAt (l : List Char) : Option (String × String × String) :=
  (digitsAlts [2, 1] l).findSome? fun p1 =>
    (wsAlts p1.2).findSome? fun r2 =>
      match r2 with
      | c :: r3 =>
        if isVisualSep c then
          (wsAlts r3).findSome? fun r4 =>
            (digitsAlts [2, 1] r4).findSome? fun p2 =>
              (wsAlts p2.2).findSome? fun r6 =>
                match r6 with
                | c2 :: r7 =>
                  if isVisualSep c2 then
                    (wsAlts r7).findSome? fun r8 =>
                      (digitsAlts [4, 3, 2] r8).findSome? fun p3 =>
                        some (p1.1, p2.1, p3.1)
                  else none
                | [] => none
        else none
      | [] => none

/-- Leftmost match of the separated-date regex. -/
def findSepDate : List Char → Option (String × String × String)
  | [] => none
  | c :: t =>
    match matchSepDateAt (c :: t) with
    | some x => some x
    | none => findSepDate t

/-- Match of the contiguous-digit regex (six to eight digits, greedy) at one
position. -/
def matchContigAt (l : List Char) : Option String :=
  (digitsAlts [8, 7, 6] l).findSome? fun p => some p.1

/-- Leftmost match of the contiguous-digit regex. -/
def findContig : List Char → Option String
  | [] => none
  | c :: t =>
    match matchContigAt (c :: t) with
    | some x => some x
    | none => findContig t

/-- `OcrProcessor::parse_visual_date` (`src/processing/ocr.rs:656`): clean to
digits and separators, try the separated regex (day/month disambiguated by
which component fits 1..12), then the contiguous YYMMDD / YYYYMMDD regex;
the output is a normalized YYMMDD string. -/
def parse_visual_date (date_str : String) : Option String :=
  let cleaned := date_str.toList.filter
    (fun c => c.isDigit || c = '/' || c = '-' || c = '.')
  match findSepDate cleaned with
  | some (g1, g2, g3) =>
    match parseU32 g1, parseU32 g2, parseU32 g3 with
    | some num1, some num2, some num3 =>
      let dmy : Option (Nat × Nat × Nat) :=
        if 1 ≤ num2 ∧ num2 ≤ 12 then some (num1, num2, num3)
        else if 1 ≤ num1 ∧ num1 ≤ 12 then some (num2, num1, num3)
        else none
      match dmy with
      | none => none
      | some (day, month, year) =>
        if 1 ≤ day ∧ day ≤ 31 ∧ 1 ≤ month ∧ month ≤ 12 ∧ 1900 ≤ year ∧ year ≤ 2100 then
          some (pad2 (year % 100) ++ pad2 month ++ pad2 day)
        else none
    | _, _, _ => none
  | none =>
    match findContig cleaned with
    | some digits =>
      if digits.length = 6 then
        match parseU32 (strSlice digits 0 2), parseU32 (strSlice digits 2 4),
            parseU32 (strSlice digits 4 6) with
        | some yy, some mm, some dd =>
          if 1 ≤ dd ∧ dd ≤ 31 ∧ 1 ≤ mm ∧ mm ≤ 12 ∧ yy ≤ 99 then
            some (pad2 yy ++ pad2 mm ++ pad2 dd)
          else none
        | _, _, _ => none
      else if digits.length = 8 then
        match parseU32 (strSlice digits 0 4), parseU32 (strSlice digits 4 6),
            parseU32 (strSlice digits 6 8) with
        | some year, some mm, some dd =>
          if 1 ≤ dd ∧ dd ≤ 31 ∧ 1 ≤ mm ∧ mm ≤ 12 ∧ 1900 ≤ year ∧ year ≤ 2100 then
            some (pad2 (year % 100) ++ pad2 mm ++ pad2 dd)
          else none
        | _, _, _ => none
      else none
    | none => none

/-- `OcrProcessor::parse_mrz_date` (`src/processing/ocr.rs:596`): map every
character to a digit, then read YYMMDD with months and days forced into
range; longer strings fall back to their first six digits, anything else to
`parse_visual_date`. -/
def parse_mrz_date (date_str : String) : Option String :=
  let cleaned := date_str.toList.map mrz_digit_map
  if cleaned.length = 6 then
    let yy := (parseU32 (String.mk (cleaned.take 2))).getD 0
    let mm := (parseU32 (String.mk ((cleaned.drop 2).take 2))).getD 1
    let dd := (parseU32 (String.mk ((cleaned.drop 4).take 2))).getD 1
    let month := if mm < 1 ∨ mm > 12 then 1 else mm
    let day := if dd < 1 ∨ dd > 31 then 1 else dd
    some (pad2 yy ++ pad2 month ++ pad2 day)
  else if cleaned.length > 6 then
    let digits_only := cleaned.filter Char.isDigit
    if digits_only.length ≥ 6 then
      let yy := (parseU32 (String.mk (digits_only.take 2))).getD 0
      let mm := (parseU32 (String.mk ((digits_only.drop 2).take 2))).getD 1
      let dd := (parseU32 (String.mk ((digits_only.drop 4).take 2))).getD 1
      let month := if mm < 1 ∨ mm > 12 then 1 else mm
      let day := if dd < 1 ∨ dd > 31 then 1 else dd
      some (pad2 yy ++ pad2 month ++ pad2 day)
    else parse_visual_date (String.mk cleaned)
  else parse_visual_date (String.mk cleaned)

/-- Rust `str::split("<<")`: non-overlapping, leftmost first. -/
def splitOnLtLt : List Char → List (List Char)
  | [] => [[]]
  | '<' :: '<' :: rest => [] :: splitOnLtLt rest
  | c :: rest =>
    match splitOnLtLt rest with
    | a :: tailParts => (c :: a) :: tailParts
    | [] => [[c]]

/-- `cleaned.replace("<", " ")` on a name segment. -/
def replaceFillerWithSpace (s : String) : String :=
  String.mk (s.toList.map (fun c => if c = '<' then ' ' else c))

/-- The TD3 decode of `OcrProcessor::extract_mrz`
(`src/processing/ocr.rs:203`–`338`), from the located (filtered and padded)
MRZ lines: slice line 1 into type/country/names, line 2 into number,
nationality (`[9..12]`), dates (reformatted for display as `DD MM YYYY`),
gender and the five check characters. -/
def extract_mrz_td3 (mrz_lines : List String) : Except PassportError MrzData :=
  if mrz_lines.length ≥ 2 then
    let l0 := mrz_lines.getD 0 ""
    let l1 := mrz_lines.getD 1 ""
    let line1 := if l0.length > 43 then strSlice l0 0 44 else l0
    let line2 := if l1.length > 43 then strSlice l1 0 44 else l1
    match parse_mrz_date (strSlice line2 13 19) with
    | none => Except.error (.MrzExtractionError "Invalid birth date after parsing")
    | some dateB =>
      let yearB := (parseU32 (strSlice dateB 0 2)).getD 0
      let monthB := (parseU32 (strSlice dateB 2 4)).getD 0
      let dayB := (parseU32 (strSlice dateB 4 6)).getD 0
      let full_yearB := if yearB < 30 then 2000 + yearB else 1900 + yearB
      let date_of_birth := pad2 dayB ++ " " ++ pad2 monthB ++ " " ++ pad4 full_yearB
      match parse_mrz_date (strSlice line2 21 27) with
      | none => Except.error (.MrzExtractionError "Invalid expiry date after parsing")
      | some dateE =>
        let yearE := (parseU32 (strSlice dateE 0 2)).getD 0
        let monthE := (parseU32 (strSlice dateE 2 4)).getD 0
        let dayE := (parseU32 (strSlice dateE 4 6)).getD 0
        let full_yearE := 2000 + yearE
        let date_of_expiry := pad2 dayE ++ " " ++ pad2 monthE ++ " " ++ pad4 full_yearE
        let document_type := if line1.length > 1 then strSlice line1 0 1 else "P"
        let raw_issuing_country := if line1.length > 5 then strSlice line1 2 5 else "MEX"
        let issuing_country := clean_mrz_alpha_field raw_issuing_country
        let name_part := if line1.length > 6 then strSlice line1 5 line1.length else ""
        let name_parts := (splitOnLtLt name_part.toList).map String.mk
        let raw_surname := name_parts.getD 0 ""
        let surname := if raw_surname ≠ "" then
            rustTrim (replaceFillerWithSpace (clean_mrz_alpha_field raw_surname))
          else "UNKNOWN"
        let raw_given := name_parts.getD 1 ""
        let given_names := if raw_given ≠ "" then
            rustTrim (replaceFillerWithSpace (clean_mrz_alpha_field raw_given))
          else "UNKNOWN"
        let raw_doc := if line2.length > 9 then strSlice line2 0 9 else ""
        let document_number := if raw_doc ≠ "" then
            (let s := clean_mrz_alphanumeric_field raw_doc
             if s = "" then "UNKNOWN" else s)
          else "UNKNOWN"
        let raw_nationality := if line2.length > 12 then strSlice line2 9 12 else "MEX"
        let nationality := clean_mrz_alpha_field raw_nationality
        let gender := if line2.length > 21 then strSlice line2 20 21 else "X"
        let doc_check := if line2.length > 10 then line2.toList.getD 9 '0' else '0'
        let dob_check := if line2.length > 20 then line2.toList.getD 19 '0' else '0'
        let exp_check := if line2.length > 28 then line2.toList.getD 27 '0' else '0'
        let pers_check := if line2.length > 43 then line2.toList.getD 42 '0' else '0'
        let comp_check := if line2.length > 44 then line2.toList.getD 43 '0' else '0'
        Except.ok
          { document_type := document_type
            issuing_country := issuing_country
            surname := surname
            given_names := given_names
            document_number := document_number
            nationality := nationality
            date_of_birth := date_of_birth
            gender := gender
            date_of_expiry := date_of_expiry
            personal_number := none
            check_digits := ⟨doc_check, dob_check, exp_check, pers_check, comp_check⟩
            document_format := some .TD3
            optional_data := none
            raw_mrz_lines := mrz_lines
            place_of_birth := none }
  else Except.error (.MrzExtractionError "Failed to extract valid MRZ lines")

end Ocr

/-- Claim C2 — evaluation of the TD3 decode at the spec's scenario lines.
The decode yields surname `SMITH`, given names `JOHN JAMES` and gender `M`
as the claim expects, but nationality `"OUS"` (the code slices line 2 at
`[9..12]`, one short of the claimed `[10:13]`, catching the document-number
check digit `0`, which the alpha cleanup turns into `O`), and the dates in
display form `"01 01 1980"` / `"01 01 2025"` instead of `800101` /
`250101`. -/
theorem C2_td3_decode_scenario_evaluation :
    Ocr.extract_mrz_td3
      ["P<USASMITH<<JOHN<JAMES<<<<<<<<<<<<<<<<<<<<<",
       "1234567890USA8001019M2501019<<<<<<<<<<<<<<00"] =
    Except.ok
      { document_type := "P"
        issuing_country := "USA"
        surname := "SMITH"
        given_names := "JOHN JAMES"
        document_number := "123456789"
        nationality := "OUS"
        date_of_birth := "01 01 1980"
        gender := "M"
        date_of_expiry := "01 01 2025"
        personal_number := none
        check_digits := ⟨'0', '9', '9', '0', '0'⟩
        document_format := some .TD3
        optional_data := none
        raw_mrz_lines :=
          ["P<USASMITH<<JOHN<JAMES<<<<<<<<<<<<<<<<<<<<<",
           "1234567890USA8001019M2501019<<<<<<<<<<<<<<00"]
        place_of_birth := none } := by
  rfl
